import Mathlib

/-!
Lid-angle sensor protocol and the Lid Pong simulation core.

A shallow embedding of `mac-angle/angle.cpp`, `lid-pong/src/Sensor.cpp` and the
simulation part of `lid-pong/src/LidPong.cpp`, followed by theorems about it.

Conventions of the embedding.

* C++ `float` and `double` values are modelled as exact rationals (`ℚ`): every
  arithmetic operation is the exact one, no rounding is modelled. The one
  exception is `Slider.updateFloat`, which repeats `Slider::update` with every
  operation rounded to nearest, ties to even, as IEEE 754 binary32 and binary64
  arithmetic does; the paddle's overshoot is decided there.
* C++ `int` (`score`, `lives`, `totalHits`) is modelled as `Int`; the counters
  of the program stay far below `2^31` and signed overflow is undefined in C++.
* `uint8_t` is `Fin 256`; the conversion to `uint16_t` is an explicit `% 65536`.
* Calls into IOKit, GLFW and `rand()` are not code of the repository: their
  results are inputs of the embedded functions.
* A thrown exception is the `Except.error` result carrying the exception class.
-/

namespace MacBookLidAngle

/-- The three exception classes declared in `angle.h`. -/
inductive SensorError where
  | SensorNotSupportedException
  | SensorInitializationException
  | SensorReadException
deriving DecidableEq, Repr

/-- An `IOReturn` status code of IOKit. -/
abbrev IOReturn := Int

/-- The status `kIOReturnSuccess`. -/
def kIOReturnSuccess : IOReturn := 0

/-- The buffer `uint8_t report[8]`. -/
abbrev Report := Fin 8 → Fin 256

/-- What one call of `IOHIDDeviceGetReport` hands back: its status, the
report length it stored through the in-out argument, and the buffer contents. -/
structure GetReport where
  result : IOReturn
  reportLength : Int
  report : Report

/-- One device of the set returned by `IOHIDManagerCopyDevices`, described by
what the calls made in `testDevice` return for it. -/
structure Candidate where
  testOpen : IOReturn
  testReport : GetReport

/-- The IOKit environment seen by the constructor: whether `IOHIDManagerCreate`
returned a manager, the status of `IOHIDManagerOpen`, the matching devices in the
order of `CFSetGetValues` (`none` for a null set), and the status of the
`IOHIDDeviceOpen` call of the constructor for the device at each index. -/
structure HidSystem where
  managerCreated : Bool
  managerOpen : IOReturn
  devices : Option (List Candidate)
  deviceOpen : Nat → IOReturn

/-- The fields of `LidAngleSensor::Impl`; `hidDevice` is `none` for `nullptr`
and otherwise the index of the retained device. -/
structure Impl where
  hidDevice : Option Nat
  deviceInitialized : Bool
deriving DecidableEq, Repr

/-- Function `LidAngleSensor::Impl::isAvailable`. -/
def Impl.isAvailable (s : Impl) : Bool :=
  s.hidDevice.isSome && s.deviceInitialized

/-- Function `LidAngleSensor::Impl::testDevice`. -/
def testDevice (c : Candidate) : Bool :=
  if c.testOpen ≠ kIOReturnSuccess then false
  else decide (c.testReport.result = kIOReturnSuccess ∧ c.testReport.reportLength ≥ 3)

/-- The `for` loop of `findLidAngleSensor`, from index `i` on. -/
def findLoop : List Candidate → Nat → Option Nat
  | [], _ => none
  | c :: cs, i => if testDevice c then some i else findLoop cs (i + 1)

/-- Function `LidAngleSensor::Impl::findLidAngleSensor`. -/
def findLidAngleSensor (sys : HidSystem) : Except SensorError (Option Nat) :=
  if !sys.managerCreated then .error .SensorInitializationException
  else if sys.managerOpen ≠ kIOReturnSuccess then .error .SensorInitializationException
  else
    match sys.devices with
    | none => .ok none
    | some ds => if ds.length > 0 then .ok (findLoop ds 0) else .ok none

/-- The constructor `LidAngleSensor::Impl::Impl`. -/
def Impl.new (sys : HidSystem) : Except SensorError Impl :=
  match findLidAngleSensor sys with
  | .error e => .error e
  | .ok none => .error .SensorNotSupportedException
  | .ok (some i) =>
    if sys.deviceOpen i = kIOReturnSuccess then
      .ok { hidDevice := some i, deviceInitialized := true }
    else .error .SensorInitializationException

/-- The value of `uint16_t rawValue = (report[2] << 8) | report[1]`. -/
def rawValue (report : Report) : Nat :=
  ((report 2).val <<< 8 ||| (report 1).val) % 65536

/-- The decode step of `readAngle`: `static_cast<double>(rawValue)`. -/
def decodeAngle (report : Report) : ℚ :=
  (rawValue report : ℚ)

/-- Function `LidAngleSensor::Impl::readAngle`; `io` is what `IOHIDDeviceGetReport`
returns when the function calls it. -/
def Impl.readAngle (s : Impl) (io : GetReport) : Except SensorError ℚ :=
  if !s.isAvailable then .error .SensorNotSupportedException
  else if io.result ≠ kIOReturnSuccess then .error .SensorReadException
  else if io.reportLength < 3 then .error .SensorReadException
  else .ok (decodeAngle io.report)

/-- The public class `LidAngleSensor`: its only member is `pImpl`. -/
structure LidAngleSensor where
  pImpl : Option Impl
deriving DecidableEq, Repr

/-- The constructor `LidAngleSensor::LidAngleSensor`. -/
def LidAngleSensor.new (sys : HidSystem) : Except SensorError LidAngleSensor :=
  match Impl.new sys with
  | .error e => .error e
  | .ok impl => .ok { pImpl := some impl }

/-- Function `LidAngleSensor::isAvailable`. -/
def LidAngleSensor.isAvailable (s : LidAngleSensor) : Bool :=
  match s.pImpl with
  | none => false
  | some impl => impl.isAvailable

/-- Function `LidAngleSensor::readAngle`. -/
def LidAngleSensor.readAngle (s : LidAngleSensor) (io : GetReport) : Except SensorError ℚ :=
  match s.pImpl with
  | none => .error .SensorNotSupportedException
  | some impl => impl.readAngle io

end MacBookLidAngle

namespace LidPong

open MacBookLidAngle

/-- The anonymous-namespace `clamp` of `Sensor.cpp`. -/
def clamp (v lo hi : ℚ) : ℚ :=
  if v < lo then lo else if hi < v then hi else v

/-- Constant `LidSensor::MIN_ANGLE`. -/
def MIN_ANGLE : ℚ := 0

/-- Constant `LidSensor::MAX_ANGLE`. -/
def MAX_ANGLE : ℚ := 180

/-- The data members of `LidSensor`; `m_sensor` is `none` for a null pointer. -/
structure LidSensor where
  m_sensor : Option LidAngleSensor
  m_currentAngle : ℚ
  m_sliderPosition : ℚ
  m_available : Bool
deriving DecidableEq

/-- The constructor `LidSensor::LidSensor`. -/
def LidSensor.new (sys : HidSystem) : LidSensor :=
  match LidAngleSensor.new sys with
  | .ok sensor =>
    if sensor.isAvailable then
      { m_sensor := some sensor, m_currentAngle := 0, m_sliderPosition := 1 / 2,
        m_available := true }
    else
      { m_sensor := some sensor, m_currentAngle := 0, m_sliderPosition := 1 / 2,
        m_available := false }
  | .error _ =>
    { m_sensor := none, m_currentAngle := 0, m_sliderPosition := 1 / 2,
      m_available := false }

/-- Function `LidSensor::isAvailable`. -/
def LidSensor.isAvailable (s : LidSensor) : Bool := s.m_available

/-- Function `LidSensor::getCurrentAngle`. -/
def LidSensor.getCurrentAngle (s : LidSensor) : ℚ := s.m_currentAngle

/-- Function `LidSensor::getSliderPosition`. -/
def LidSensor.getSliderPosition (s : LidSensor) : ℚ := s.m_sliderPosition

/-- The two statements of `LidSensor::update` that map an angle to a slider
position: clamp to the range, then rescale. -/
def angleToSliderPosition (angle : ℚ) : ℚ :=
  let clampedAngle := clamp angle MIN_ANGLE MAX_ANGLE
  (clampedAngle - MIN_ANGLE) / (MAX_ANGLE - MIN_ANGLE)

/-- Function `LidSensor::update`; `io` is what the transport returns if `readAngle`
reaches it. The `catch` branch only prints. -/
def LidSensor.update (s : LidSensor) (io : GetReport) : LidSensor :=
  if !s.m_available then s
  else
    match s.m_sensor with
    | none => s
    | some sensor =>
      match sensor.readAngle io with
      | .ok angle =>
        { s with m_currentAngle := angle, m_sliderPosition := angleToSliderPosition angle }
      | .error _ => s

/-- Sample environment: the manager opens but no device matches. -/
def noDeviceSystem : HidSystem :=
  { managerCreated := true, managerOpen := 0, devices := some [], deviceOpen := fun _ => 0 }

/-- Sample transport outcome: a successful 8-byte report carrying 90 degrees. -/
def goodReport : GetReport :=
  { result := 0, reportLength := 8, report := ![1, 90, 0, 0, 0, 0, 0, 0] }

/-- Sample transport outcome: a successful read of only two bytes. -/
def shortReport : GetReport :=
  { result := 0, reportLength := 2, report := ![1, 90, 0, 0, 0, 0, 0, 0] }

/-- Sample environment: one matching device that passes `testDevice` and opens. -/
def oneDeviceSystem : HidSystem :=
  { managerCreated := true, managerOpen := 0,
    devices := some [{ testOpen := 0, testReport := goodReport }],
    deviceOpen := fun _ => 0 }

end LidPong

namespace LidPongGame

open MacBookLidAngle LidPong

/-- The struct `Ball`. -/
structure Ball where
  x : ℚ
  y : ℚ
  vx : ℚ
  vy : ℚ
  radius : ℚ
  active : Bool
deriving DecidableEq

/-- The constructor `Ball()`. -/
def Ball.new : Ball :=
  { x := 0, y := 0, vx := 8 / 10, vy := 6 / 10, radius := 2 / 100, active := true }

/-- Function `Ball::update`. -/
def Ball.update (b : Ball) (deltaTime speedMultiplier : ℚ) : Ball :=
  if !b.active then b
  else
    let b1 : Ball :=
      { b with x := b.x + b.vx * deltaTime * speedMultiplier,
               y := b.y + b.vy * deltaTime * speedMultiplier }
    -- Bounce off top/bottom walls
    let b2 : Ball :=
      if b1.y + b1.radius > 95 / 100 ∨ b1.y - b1.radius < -(95 / 100) then
        let c1 : Ball := { b1 with vy := -b1.vy }
        let c2 : Ball := if c1.y + c1.radius > 95 / 100 then { c1 with y := 95 / 100 - c1.radius } else c1
        if c2.y - c2.radius < -(95 / 100) then { c2 with y := -(95 / 100) + c2.radius } else c2
      else b1
    -- Bounce off right wall
    let b3 : Ball :=
      if b2.x + b2.radius > 98 / 100 then { b2 with vx := -b2.vx, x := 98 / 100 - b2.radius }
      else b2
    -- Ball missed - goes off left side
    if b3.x + b3.radius < -1 then { b3 with active := false } else b3

/-- Function `Ball::reset`; `r1` and `r2` are the values of the two `rand()` calls. -/
def Ball.reset (b : Ball) (r1 r2 : Nat) : Ball :=
  { b with x := 0, y := 0,
           vx := 8 / 10 * (if r1 % 2 = 0 then 1 else -1),
           vy := 6 / 10 * (if r2 % 2 = 0 then 1 else -1),
           active := true }

/-- The struct `Slider`. -/
structure Slider where
  x : ℚ
  y : ℚ
  width : ℚ
  height : ℚ
  targetY : ℚ
  speed : ℚ
deriving DecidableEq

/-- The constructor `Slider()`. -/
def Slider.new : Slider :=
  { x := -(95 / 100), y := 0, width := 2 / 100, height := 6 / 10, targetY := 0, speed := 12 }

/-- Function `Slider::update`. -/
def Slider.update (s : Slider) (deltaTime lidPosition : ℚ) : Slider :=
  let normalizedPos : ℚ := lidPosition - 1 / 2
  let superSensitive : ℚ := normalizedPos * 4
  let t0 : ℚ := superSensitive * (85 / 100)
  let t1 : ℚ := if t0 > 85 / 100 then 85 / 100 else t0
  let t2 : ℚ := if t1 < -(85 / 100) then -(85 / 100) else t1
  let diff : ℚ := t2 - s.y
  { s with targetY := t2, y := s.y + diff * s.speed * deltaTime }

/-- Function `Slider::checkCollision`. -/
def Slider.checkCollision (s : Slider) (ball : Ball) : Bool :=
  decide (ball.x - ball.radius ≤ s.x + s.width / 2 ∧
          ball.x + ball.radius ≥ s.x - s.width / 2 ∧
          ball.y - ball.radius ≤ s.y + s.height / 2 ∧
          ball.y + ball.radius ≥ s.y - s.height / 2)

/-- The data members of `LidPongGame` that the simulation uses, together with
the function-local statics `spacePressed` (of `run`) and `plusPressed`,
`minusPressed` (of `handleSpeedSliderInput`). -/
structure Game where
  sensor : LidSensor
  ball : Ball
  slider : Slider
  score : Int
  lives : Int
  totalHits : Int
  ballSpeedMultiplier : ℚ
  currentLidAngle : ℚ
  gameOver : Bool
  showGameOverModal : Bool
  spacePressed : Bool
  plusPressed : Bool
  minusPressed : Bool
deriving DecidableEq

/-- The constructor `LidPongGame()`; the `sensor` member is built against the
IOKit environment `sys`. -/
def Game.new (sys : HidSystem) : Game :=
  { sensor := LidSensor.new sys, ball := Ball.new, slider := Slider.new,
    score := 0, lives := 3, totalHits := 0, ballSpeedMultiplier := 6 / 10,
    currentLidAngle := 0, gameOver := false, showGameOverModal := false,
    spacePressed := false, plusPressed := false, minusPressed := false }

/-- The inputs one call of `LidPongGame::update` consumes: the elapsed time, the
outcome of the transport read, the state of the up and down keys, and the two
`rand()` values a ball reset would draw. -/
structure TickInput where
  deltaTime : ℚ
  io : GetReport
  upKey : Bool
  downKey : Bool
  r1 : Nat
  r2 : Nat

/-- The value of `lidPosition` computed in `LidPongGame::update` from the
adapter (after its update) and the keys. `getSliderPosition` does not throw, so
the `catch (...)` branch is never entered. -/
def lidPosition (sensor : LidSensor) (upKey downKey : Bool) : ℚ :=
  if sensor.isAvailable then sensor.getSliderPosition
  else if upKey then 8 / 10
  else if downKey then 2 / 10
  else 1 / 2

/-- The collision block of `LidPongGame::update` (the `if` that follows
`ball.update`). -/
def resolveCollision (g : Game) : Game :=
  if g.ball.active && g.slider.checkCollision g.ball then
    if g.ball.vx < 0 then
      let hitPos : ℚ := (g.ball.y - g.slider.y) / (g.slider.height / 2)
      let vy0 : ℚ := g.ball.vy + hitPos * (15 / 10)
      let vy1 : ℚ := if vy0 > 12 / 10 then 12 / 10 else vy0
      let vy2 : ℚ := if vy1 < -(12 / 10) then -(12 / 10) else vy1
      { g with ball := { g.ball with vx := |g.ball.vx|, vy := vy2 },
               totalHits := g.totalHits + 1,
               score := g.totalHits + 1 }
    else g
  else g

/-- The miss block of `LidPongGame::update` (`if (!ball.active && lives > 0)`). -/
def handleMiss (g : Game) (r1 r2 : Nat) : Game :=
  if !g.ball.active && decide (g.lives > 0) then
    let g1 : Game := { g with lives := g.lives - 1 }
    if g1.lives ≤ 0 then { g1 with gameOver := true, showGameOverModal := true }
    else { g1 with ball := g1.ball.reset r1 r2 }
  else g

/-- Function `LidPongGame::update` without its console output. -/
def update (g : Game) (inp : TickInput) : Game :=
  let sensor := g.sensor.update inp.io
  let g0 : Game := { g with sensor := sensor, currentLidAngle := sensor.getCurrentAngle }
  let pos := lidPosition sensor inp.upKey inp.downKey
  if !g0.gameOver then
    let g1 : Game :=
      { g0 with slider := g0.slider.update inp.deltaTime pos,
                ball := g0.ball.update inp.deltaTime g0.ballSpeedMultiplier }
    handleMiss (resolveCollision g1) inp.r1 inp.r2
  else g0

/-- The space-key block of `LidPongGame::run`, with its edge detection. -/
def handleSpace (g : Game) (spaceKey : Bool) (r1 r2 : Nat) : Game :=
  let g1 : Game :=
    if spaceKey && !g.spacePressed then
      if g.gameOver then
        { g with score := 0, lives := 3, totalHits := 0, gameOver := false,
                 showGameOverModal := false, ball := g.ball.reset r1 r2 }
      else if !g.ball.active then { g with ball := g.ball.reset r1 r2 }
      else g
    else g
  { g1 with spacePressed := spaceKey }

/-- The inputs of `handleSpeedSliderInput`: cursor position, window size, the
left mouse button and the plus and minus keys. -/
structure SpeedInput where
  mouseX : ℚ
  mouseY : ℚ
  windowWidth : Int
  windowHeight : Int
  mouseLeft : Bool
  plusKey : Bool
  minusKey : Bool

/-- Function `LidPongGame::handleSpeedSliderInput`. -/
def handleSpeedSliderInput (g : Game) (inp : SpeedInput) : Game :=
  let glX : ℚ := (inp.mouseX / inp.windowWidth) * 2 - 1
  let glY : ℚ := 1 - (inp.mouseY / inp.windowHeight) * 2
  let m1 : ℚ :=
    if inp.mouseLeft && decide (glY ≥ -(87 / 100) ∧ glY ≤ -(78 / 100) ∧
        glX ≥ -(4 / 10) ∧ glX ≤ 4 / 10) then
      let sliderPos := (glX + 4 / 10) / (8 / 10)
      let a := 2 / 10 + sliderPos * (3 - 2 / 10)
      let b := if a < 2 / 10 then 2 / 10 else a
      if b > 3 then 3 else b
    else g.ballSpeedMultiplier
  let m2 : ℚ :=
    if inp.plusKey && !g.plusPressed then
      let a := m1 + 2 / 10
      if a > 3 then 3 else a
    else m1
  let m3 : ℚ :=
    if inp.minusKey && !g.minusPressed then
      let a := m2 - 2 / 10
      if a < 2 / 10 then 2 / 10 else a
    else m2
  { g with ballSpeedMultiplier := m3, plusPressed := inp.plusKey, minusPressed := inp.minusKey }

/-- What can happen to the game between two observations: the space-key block,
the speed-input block, or one simulation tick. -/
inductive Command where
  | space (spaceKey : Bool) (r1 r2 : Nat)
  | speed (inp : SpeedInput)
  | tick (inp : TickInput)

/-- Effect of one command. -/
def step (g : Game) : Command → Game
  | .space k r1 r2 => handleSpace g k r1 r2
  | .speed inp => handleSpeedSliderInput g inp
  | .tick inp => update g inp

/-- Effect of a sequence of commands, first command first. -/
def runCommands (g : Game) (cs : List Command) : Game :=
  cs.foldl step g

/-- One iteration of the loop of `LidPongGame::run` (without rendering). -/
def runIteration (g : Game) (spaceKey : Bool) (r1 r2 : Nat) (sp : SpeedInput)
    (inp : TickInput) : Game :=
  update (handleSpeedSliderInput (handleSpace g spaceKey r1 r2) sp) inp

/-- The state inside a tick of a running game right after `slider.update` and
`ball.update`, before the collision and miss blocks. -/
def afterMotion (g : Game) (inp : TickInput) : Game :=
  { g with sensor := g.sensor.update inp.io,
           currentLidAngle := (g.sensor.update inp.io).getCurrentAngle,
           slider := g.slider.update inp.deltaTime
             (lidPosition (g.sensor.update inp.io) inp.upKey inp.downKey),
           ball := g.ball.update inp.deltaTime g.ballSpeedMultiplier }

/-- The tick is a miss: the game is running and the ball leaves its
integration step inactive. -/
def tickMisses (g : Game) (inp : TickInput) : Bool :=
  !g.gameOver && !(afterMotion g inp).ball.active

/-- The tick is a counted paddle hit: the game is running and the innermost
branch of the collision block is taken. -/
def tickHits (g : Game) (inp : TickInput) : Bool :=
  !g.gameOver && ((afterMotion g inp).ball.active &&
    (afterMotion g inp).slider.checkCollision (afterMotion g inp).ball &&
    decide ((afterMotion g inp).ball.vx < 0))

/-- The tick performs the automatic reset: the game is running and the `else`
branch of the miss block (the call `ball.reset()`) is executed. -/
def tickAutoResets (g : Game) (inp : TickInput) : Bool :=
  !g.gameOver && (!(resolveCollision (afterMotion g inp)).ball.active &&
    decide ((resolveCollision (afterMotion g inp)).lives > 0) &&
    !decide ((resolveCollision (afterMotion g inp)).lives - 1 ≤ 0))

/-- Number of ticks of a run from `g` that satisfy `p` in the state they start from. -/
def countTicks (p : Game → TickInput → Bool) : Game → List TickInput → Nat
  | _, [] => 0
  | g, inp :: rest => (if p g inp then 1 else 0) + countTicks p (update g inp) rest

/-- Effect of a run of ticks. -/
def runTicks (g : Game) (ts : List TickInput) : Game :=
  ts.foldl update g

/-- Sample tick: five seconds have elapsed, no key is held, the transport
returns `goodReport`, and a reset would draw an odd then an even number. -/
def stallTick : TickInput :=
  { deltaTime := 5, io := goodReport, upKey := false, downKey := false, r1 := 1, r2 := 0 }

/-- Sample run: four stalled ticks. The first bounces the ball off the right
wall, each of the other three carries it past the paddle side. -/
def threeMissRun : List TickInput := [stallTick, stallTick, stallTick, stallTick]

/-- Sample command sequence mixing ticks, space-key blocks and a speed input. -/
def sampleCommands : List Command :=
  [.tick stallTick, .space true 0 0, .tick stallTick,
   .speed { mouseX := 400, mouseY := 550, windowWidth := 800, windowHeight := 600,
            mouseLeft := true, plusKey := true, minusKey := false },
   .tick stallTick, .tick stallTick, .space false 0 0, .space true 1 1]

/-- Sample state: the ball overlaps the paddle at the height of its centre and
moves left. -/
def hitState : Game :=
  { Game.new noDeviceSystem with
    ball := { x := -(94 / 100), y := 0, vx := -(8 / 10), vy := 6 / 10, radius := 2 / 100,
              active := true } }

/-- A state is reachable when some command sequence leads to it from the
state built by the constructor, for some IOKit environment. -/
def Reachable (g : Game) : Prop :=
  ∃ (sys : HidSystem) (cs : List Command), runCommands (Game.new sys) cs = g

end LidPongGame

namespace MacBookLidAngle

/-- The `for` loop of `findLidAngleSensor` from index `i` on, returning next to
the found index the indices on which `testDevice` was called, in call order. -/
def findLoopTrace : List Candidate → Nat → Option Nat × List Nat
  | [], _ => (none, [])
  | c :: cs, i =>
    if testDevice c then (some i, [i])
    else ((findLoopTrace cs (i + 1)).1, i :: (findLoopTrace cs (i + 1)).2)

/-- Sample environment: one matching device whose diagnostic read returns only
two bytes, so that `testDevice` rejects it. -/
def rejectingSystem : HidSystem :=
  { managerCreated := true, managerOpen := 0,
    devices := some [{ testOpen := 0,
                       testReport := { result := 0, reportLength := 2, report := fun _ => 0 } }],
    deviceOpen := fun _ => 0 }

/-- Sample environment: one matching device that passes `testDevice` but whose
open in the constructor fails. -/
def unopenableSystem : HidSystem :=
  { managerCreated := true, managerOpen := 0,
    devices := some [{ testOpen := 0,
                       testReport := { result := 0, reportLength := 8, report := fun _ => 0 } }],
    deviceOpen := fun _ => -536870203 }

/-- Sample device list: the first device cannot be opened for the test, the
second and the third pass it. -/
def threeDevices : List Candidate :=
  [{ testOpen := -536870203,
     testReport := { result := 0, reportLength := 8, report := fun _ => 0 } },
   { testOpen := 0,
     testReport := { result := 0, reportLength := 8, report := fun _ => 0 } },
   { testOpen := 0,
     testReport := { result := 0, reportLength := 3, report := fun _ => 0 } }]

/-- Sample environment: the manager opens and `threeDevices` match. -/
def threeDeviceSystem : HidSystem :=
  { managerCreated := true, managerOpen := 0, devices := some threeDevices,
    deviceOpen := fun _ => 0 }

/-- Sample transport outcome: a successful 8-byte report whose bytes 1 and 2
carry `0x2710`, that is 10000. -/
def centidegreeReport : GetReport :=
  { result := 0, reportLength := 8, report := ![1, 16, 39, 0, 0, 0, 0, 0] }

end MacBookLidAngle

namespace LidPongGame

open MacBookLidAngle LidPong

/-- Sample tick: a hundredth of a second has elapsed and the up key is held. -/
def upTick : TickInput :=
  { deltaTime := 1 / 100, io := goodReport, upKey := true, downKey := false, r1 := 0, r2 := 0 }

/-- Sample speed input: the cursor is dragged to the right end of the speed
slider of an 800 by 600 window while the plus key goes down. -/
def dragRightInput : SpeedInput :=
  { mouseX := 560, mouseY := 550, windowWidth := 800, windowHeight := 600,
    mouseLeft := true, plusKey := true, minusKey := false }

/-- Sample state: the game built without a device after `threeMissRun`, that
is after its third miss. -/
def finishedState : Game :=
  { Game.new noDeviceSystem with
    lives := 0, gameOver := true, showGameOverModal := true,
    ball := { x := -(240 / 100), y := 93 / 100, vx := -(8 / 10), vy := -(6 / 10),
              radius := 2 / 100, active := false } }

/-- Sample tick: no time has elapsed and no key is held. -/
def zeroTick : TickInput :=
  { deltaTime := 0, io := goodReport, upKey := false, downKey := false, r1 := 0, r2 := 0 }

/-- Sample tick: a twelfth of a second has elapsed and the up key is held. -/
def nudgeTick : TickInput :=
  { deltaTime := 1 / 12, io := goodReport, upKey := true, downKey := false, r1 := 0, r2 := 0 }

/-- Sample tick: twenty-three twelfths of a second have elapsed and the up key
is held. -/
def strikeTick : TickInput :=
  { deltaTime := 23 / 12, io := goodReport, upKey := true, downKey := false, r1 := 0, r2 := 0 }

/-- Sample state: the game built without a device after two `stallTick`s and a
`nudgeTick`: one life is lost, the reset ball moves left and up, the paddle
has reached the top target. -/
def preHitState : Game :=
  { Game.new noDeviceSystem with
    lives := 2,
    ball := { x := -(4 / 100), y := 3 / 100, vx := -(8 / 10), vy := 6 / 10, radius := 2 / 100,
              active := true },
    slider := { Slider.new with y := 85 / 100, targetY := 85 / 100 } }

/-- Rounding of a rational to the nearest integer, a tie going to the even one. -/
def roundHalfEven (q : ℚ) : ℤ :=
  if q - ⌊q⌋ < 1 / 2 then ⌊q⌋
  else if 1 / 2 < q - ⌊q⌋ then ⌊q⌋ + 1
  else if ⌊q⌋ % 2 = 0 then ⌊q⌋
  else ⌊q⌋ + 1

/-- The binary exponent at which `x` is rounded in a format whose least normal
exponent is `emin`: the exponent of its binade, or `emin` for a subnormal. -/
def binade (emin : ℤ) (x : ℚ) : ℤ :=
  max (Int.log 2 |x|) emin

/-- Rounding to nearest, ties to even, into the binary floating-point format
with `prec` significand bits and least normal exponent `emin`. Overflow to
infinity is not modelled. -/
def roundBinary (prec : ℕ) (emin : ℤ) (x : ℚ) : ℚ :=
  (roundHalfEven (x / 2 ^ (binade emin x - ((prec : ℤ) - 1))) : ℚ)
    * 2 ^ (binade emin x - ((prec : ℤ) - 1))

/-- Rounding to a C++ `float` (IEEE 754 binary32). -/
def roundFloat (x : ℚ) : ℚ := roundBinary 24 (-126) x

/-- Rounding to a C++ `double` (IEEE 754 binary64). -/
def roundDouble (x : ℚ) : ℚ := roundBinary 53 (-1022) x

/-- Function `Slider::update` in the arithmetic of the program: the subtraction
`lidPosition - 0.5f` is done in `double` and converted to `float`, every other
operation is a `float` operation, `0.85f` is the `float` nearest to 0.85. With
`fused` the compiler contracts `y + (diff * speed) * deltaTime` into one fused
multiply-add, without it the product is rounded before the sum. The clamps give
the same result for an infinite and for a large finite value, so that leaving
overflow out does not change the result. -/
def Slider.updateFloat (s : Slider) (fused : Bool) (deltaTime lidPosition : ℚ) : Slider :=
  let normalizedPos : ℚ := roundFloat (roundDouble (lidPosition - 1 / 2))
  let superSensitive : ℚ := roundFloat (normalizedPos * 4)
  let t0 : ℚ := roundFloat (superSensitive * roundFloat (85 / 100))
  let t1 : ℚ := if t0 > roundFloat (85 / 100) then roundFloat (85 / 100) else t0
  let t2 : ℚ := if t1 < -roundFloat (85 / 100) then -roundFloat (85 / 100) else t1
  let diff : ℚ := roundFloat (t2 - s.y)
  let increment : ℚ :=
    if fused then roundFloat (diff * s.speed) * deltaTime
    else roundFloat (roundFloat (diff * s.speed) * deltaTime)
  { s with targetY := t2, y := roundFloat (s.y + increment) }

/-- Sample paddle: the paddle of the constructor at the `float` height
-0.79144055. -/
def overshootSlider : Slider := { Slider.new with y := -(13278169 / 16777216) }

/-- Sample deltaTime: the `float` 0.08333333, the largest one below 1/12. -/
def overshootDeltaTime : ℚ := 5592405 / 67108864

/-- Sample control value: the `double` nearest to 0.8, which the keyboard
fallback passes. -/
def doubleEightTenths : ℚ := 3602879701896397 / 4503599627370496

end LidPongGame

/-! ## Sensor protocol: decoding and failure kinds -/

namespace MacBookLidAngle

/-- The bit expression of the decode step is the little-endian combination
of the two bytes and fits sixteen bits. -/
theorem shift_or_eq (hi lo : Fin 256) :
    hi.val <<< 8 ||| lo.val = 256 * hi.val + lo.val ∧ hi.val <<< 8 ||| lo.val < 65536 := by
  have hlo : lo.val < 2 ^ 8 := lo.isLt
  have hhi : hi.val < 256 := hi.isLt
  have h := Nat.mul_add_lt_is_or hlo hi.val
  have e : hi.val <<< 8 ||| lo.val = 256 * hi.val + lo.val := by
    rw [Nat.shiftLeft_eq, Nat.mul_comm]
    simpa using h.symm
  exact ⟨e, by omega⟩

/-- The conversion to `uint16_t` in the decode step never truncates. -/
theorem rawValue_eq (r : Report) :
    rawValue r = (r 2).val <<< 8 ||| (r 1).val := by
  unfold rawValue
  exact Nat.mod_eq_of_lt (shift_or_eq (r 2) (r 1)).2

/-- Result of `Impl::readAngle` on an available sensor, a successful transport result and
a report of length at least three. -/
theorem Impl.readAngle_ok (s : Impl) (io : GetReport) (hav : s.isAvailable = true)
    (hres : io.result = kIOReturnSuccess) (hlen : 3 ≤ io.reportLength) :
    s.readAngle io = .ok (decodeAngle io.report) := by
  have hl : ¬ io.reportLength < 3 := by omega
  simp [Impl.readAngle, hav, hres, hl]

/-- C1: for a sensor that is available, a transport read that succeeds and a
report length of at least 3, `readAngle` returns `(byte2 << 8) | byte1` as an
unsigned 16-bit number (below 65536), taken as degrees without scaling; any
other successful report with the same bytes 1 and 2 (whatever its byte 0 and
bytes 3..7) gives the same result. -/
theorem readAngle_decodes_bytes_1_2 (s : Impl) (io : GetReport)
    (hav : s.isAvailable = true) (hres : io.result = kIOReturnSuccess)
    (hlen : 3 ≤ io.reportLength) :
    s.readAngle io = .ok (((io.report 2).val <<< 8 ||| (io.report 1).val : ℕ) : ℚ) ∧
    (io.report 2).val <<< 8 ||| (io.report 1).val < 65536 ∧
    ∀ io2 : GetReport, io2.result = kIOReturnSuccess → 3 ≤ io2.reportLength →
      io2.report 1 = io.report 1 → io2.report 2 = io.report 2 →
      s.readAngle io2 = s.readAngle io := by
  refine ⟨?_, (shift_or_eq _ _).2, ?_⟩
  · rw [Impl.readAngle_ok s io hav hres hlen, decodeAngle, rawValue_eq]
  · intro io2 hres2 hlen2 h1 h2
    rw [Impl.readAngle_ok s io hav hres hlen, Impl.readAngle_ok s io2 hav hres2 hlen2]
    simp [decodeAngle, rawValue, h1, h2]

/-- Witness for C1: the report `07 5A 00 01 02 03 04 05` decodes to 90 degrees. -/
theorem readAngle_decodes_bytes_1_2_witness :
    Impl.readAngle { hidDevice := some 0, deviceInitialized := true }
        { result := 0, reportLength := 8, report := ![7, 90, 0, 1, 2, 3, 4, 5] }
      = .ok (((0 : ℕ) <<< 8 ||| 90 : ℕ) : ℚ) :=
  (readAngle_decodes_bytes_1_2 { hidDevice := some 0, deviceInitialized := true }
    { result := 0, reportLength := 8, report := ![7, 90, 0, 1, 2, 3, 4, 5] }
    rfl rfl (by decide)).1

/-- C2: round trip. For every `v` in `0..65535`, a report whose byte 1 is
`v mod 256` and whose byte 2 is `v div 256` (bytes 0 and 3..7 arbitrary) is
decoded by the decode step of `readAngle` to exactly `v`. -/
theorem decode_encode_roundtrip (v : ℕ) (_hv : v < 65536) (r : Report)
    (h1 : (r 1).val = v % 256) (h2 : (r 2).val = v / 256) :
    rawValue r = v ∧ decodeAngle r = (v : ℚ) := by
  have e : rawValue r = v := by
    rw [rawValue_eq, (shift_or_eq (r 2) (r 1)).1, h1, h2]
    omega
  exact ⟨e, by rw [decodeAngle, e]⟩

/-- Witness for C2: `v = 0x1234` in the report `FF 34 12 09 08 07 06 05`. -/
theorem decode_encode_roundtrip_witness :
    rawValue ![255, 52, 18, 9, 8, 7, 6, 5] = 4660 ∧
    decodeAngle ![255, 52, 18, 9, 8, 7, 6, 5] = ((4660 : ℕ) : ℚ) :=
  decode_encode_roundtrip 4660 (by decide) ![255, 52, 18, 9, 8, 7, 6, 5] rfl rfl

/-- Failure analysis of `Impl::readAngle`. -/
theorem Impl.readAngle_cases (s : Impl) (io : GetReport) :
    (s.readAngle io = .error .SensorNotSupportedException ↔ s.isAvailable = false) ∧
    (s.readAngle io = .error .SensorReadException ↔
      s.isAvailable = true ∧ (io.result ≠ kIOReturnSuccess ∨ io.reportLength < 3)) ∧
    (s.readAngle io = .ok (decodeAngle io.report) ↔
      s.isAvailable = true ∧ io.result = kIOReturnSuccess ∧ 3 ≤ io.reportLength) ∧
    s.readAngle io ≠ .error .SensorInitializationException := by
  unfold Impl.readAngle
  by_cases hav : s.isAvailable = true
  · by_cases hres : io.result = kIOReturnSuccess
    · by_cases hlen : io.reportLength < 3
      · simp [hav, hres, hlen]
      · have : 3 ≤ io.reportLength := by omega
        simp [hav, hres, hlen, this]
    · simp [hav, hres]
  · simp at hav
    simp [hav]

/-- C4: `readAngle` (the public function and the `Impl` one it forwards to)
fails exactly when the sensor is unavailable, or the transport result is not
success, or the report length is below 3. The failure is the not-available kind
(the class `SensorNotSupportedException` in the source) exactly when the sensor
is unavailable, and `SensorReadException` exactly in the other two cases; in
every remaining case, and only then, the decoded angle is returned. -/
theorem readAngle_failure_kinds (s : LidAngleSensor) (io : GetReport) :
    ((∃ e, s.readAngle io = .error e) ↔
      (s.isAvailable = false ∨ io.result ≠ kIOReturnSuccess ∨ io.reportLength < 3)) ∧
    (s.readAngle io = .error .SensorNotSupportedException ↔ s.isAvailable = false) ∧
    (s.readAngle io = .error .SensorReadException ↔
      s.isAvailable = true ∧ (io.result ≠ kIOReturnSuccess ∨ io.reportLength < 3)) ∧
    (s.readAngle io = .ok (decodeAngle io.report) ↔
      s.isAvailable = true ∧ io.result = kIOReturnSuccess ∧ 3 ≤ io.reportLength) ∧
    (∀ impl : Impl, s.pImpl = some impl →
      s.readAngle io = impl.readAngle io ∧ s.isAvailable = impl.isAvailable) := by
  have key : (s.readAngle io = .error .SensorNotSupportedException ↔ s.isAvailable = false) ∧
      (s.readAngle io = .error .SensorReadException ↔
        s.isAvailable = true ∧ (io.result ≠ kIOReturnSuccess ∨ io.reportLength < 3)) ∧
      (s.readAngle io = .ok (decodeAngle io.report) ↔
        s.isAvailable = true ∧ io.result = kIOReturnSuccess ∧ 3 ≤ io.reportLength) := by
    cases s with
    | mk p =>
      cases p with
      | none => simp [LidAngleSensor.readAngle, LidAngleSensor.isAvailable]
      | some impl =>
        have h := Impl.readAngle_cases impl io
        simpa [LidAngleSensor.readAngle, LidAngleSensor.isAvailable] using ⟨h.1, h.2.1, h.2.2.1⟩
  refine ⟨?_, key.1, key.2.1, key.2.2, ?_⟩
  · constructor
    · rintro ⟨e, he⟩
      by_contra hcon
      push_neg at hcon
      have hav : s.isAvailable = true := by
        cases h : s.isAvailable
        · exact absurd h hcon.1
        · rfl
      have hok := key.2.2.mpr ⟨hav, hcon.2.1, by omega⟩
      rw [hok] at he
      cases he
    · intro h
      by_cases hav : s.isAvailable = false
      · exact ⟨_, key.1.mpr hav⟩
      · have hav2 : s.isAvailable = true := by
          cases h2 : s.isAvailable
          · exact absurd h2 hav
          · rfl
        rcases h with h | h
        · exact absurd h hav
        · exact ⟨_, key.2.1.mpr ⟨hav2, h⟩⟩
  · intro impl hp
    simp [LidAngleSensor.readAngle, LidAngleSensor.isAvailable, hp]

end MacBookLidAngle

/-! ## Sensor adapter: normalisation and absorbed failures -/

namespace LidPong

open MacBookLidAngle

/-- The slider position computed from an angle, case by case. -/
theorem angleToSliderPosition_cases (a : ℚ) :
    angleToSliderPosition a = if a < 0 then 0 else if 180 < a then 1 else a / 180 := by
  unfold angleToSliderPosition clamp MIN_ANGLE MAX_ANGLE
  by_cases h0 : a < 0
  · simp [h0]
  · by_cases h1 : (180 : ℚ) < a
    · simp [h0, h1]
    · simp [h0, h1]

/-- A successful read stores the angle and the slider position computed from it. -/
theorem LidSensor.update_ok (s : LidSensor) (sensor : LidAngleSensor) (io : GetReport) (a : ℚ)
    (hav : s.m_available = true) (hs : s.m_sensor = some sensor)
    (hr : sensor.readAngle io = .ok a) :
    s.update io = { s with m_currentAngle := a, m_sliderPosition := angleToSliderPosition a } := by
  simp [LidSensor.update, hav, hs, hr]

/-- C3: the normalized position that `LidSensor::update` computes from a raw
angle `a` is `clamp(a, 0, 180) / 180`: exactly 0 for `a < 0`, exactly 1 for
`a > 180`, `a / 180` in between, hence always in `[0, 1]`; and it is the value
`update` stores as slider position after a successful read of `a`. -/
theorem sliderPosition_is_clamped_rescale (a : ℚ) (s : LidSensor) (sensor : LidAngleSensor)
    (io : GetReport) :
    angleToSliderPosition a = clamp a 0 180 / 180 ∧
    (angleToSliderPosition a = if a < 0 then 0 else if 180 < a then 1 else a / 180) ∧
    0 ≤ angleToSliderPosition a ∧ angleToSliderPosition a ≤ 1 ∧
    (s.m_available = true → s.m_sensor = some sensor → sensor.readAngle io = .ok a →
      (s.update io).m_sliderPosition = angleToSliderPosition a) := by
  refine ⟨?_, angleToSliderPosition_cases a, ?_, ?_, ?_⟩
  · simp [angleToSliderPosition, MIN_ANGLE, MAX_ANGLE]
  · rw [angleToSliderPosition_cases]
    split_ifs with h0 h1
    · exact le_refl 0
    · exact zero_le_one
    · exact div_nonneg (not_lt.mp h0) (by norm_num)
  · rw [angleToSliderPosition_cases]
    split_ifs with h0 h1
    · exact zero_le_one
    · exact le_refl 1
    · rw [div_le_one (by norm_num)]
      exact not_lt.mp h1
  · intro hav hs hr
    rw [LidSensor.update_ok s sensor io a hav hs hr]

/-- Witness for C3: the report `00 0E 01 ..` carries 270 degrees, which an
available adapter maps to slider position 1. -/
theorem sliderPosition_is_clamped_rescale_witness :
    (LidSensor.update
        { m_sensor := some { pImpl := some { hidDevice := some 0, deviceInitialized := true } },
          m_currentAngle := 0, m_sliderPosition := 1 / 2, m_available := true }
        { result := 0, reportLength := 8, report := ![0, 14, 1, 0, 0, 0, 0, 0] }).m_sliderPosition
      = angleToSliderPosition 270 :=
  (sliderPosition_is_clamped_rescale 270
    { m_sensor := some { pImpl := some { hidDevice := some 0, deviceInitialized := true } },
      m_currentAngle := 0, m_sliderPosition := 1 / 2, m_available := true }
    { pImpl := some { hidDevice := some 0, deviceInitialized := true } }
    { result := 0, reportLength := 8, report := ![0, 14, 1, 0, 0, 0, 0, 0] }).2.2.2.2
    rfl rfl
    (by
      have hraw : rawValue ![0, 14, 1, 0, 0, 0, 0, 0] = 270 := by decide
      simp [LidAngleSensor.readAngle, Impl.readAngle, Impl.isAvailable, kIOReturnSuccess,
        decodeAngle, hraw])

/-- An update against an unavailable adapter, a missing sensor object, or a
failing read returns the adapter as it was. -/
theorem LidSensor.update_noop (s : LidSensor) (io : GetReport)
    (h : s.m_available = false ∨ s.m_sensor = none ∨
      ∃ sensor e, s.m_sensor = some sensor ∧ sensor.readAngle io = .error e) :
    s.update io = s := by
  unfold LidSensor.update
  rcases h with h | h | ⟨sensor, e, hs, hr⟩
  · simp [h]
  · simp [h]
  · simp [hs, hr]

/-- An adapter built over a sensor whose construction threw is unavailable and
holds no sensor object. -/
theorem LidSensor.new_of_error (sys : HidSystem) (e : SensorError)
    (h : LidAngleSensor.new sys = .error e) :
    LidSensor.new sys =
      { m_sensor := none, m_currentAngle := 0, m_sliderPosition := 1 / 2,
        m_available := false } := by
  simp [LidSensor.new, h]

/-- Any number of updates leaves an unavailable adapter as it is. -/
theorem LidSensor.foldl_update_unavailable (ios : List GetReport) (s : LidSensor)
    (h : s.m_available = false) : ios.foldl LidSensor.update s = s := by
  induction ios with
  | nil => rfl
  | cons io rest ih =>
    rw [List.foldl_cons, LidSensor.update_noop s io (Or.inl h)]
    exact ih

/-- C5: `LidSensor::update` leaves the whole adapter state (slider position,
current angle, availability flag, sensor object) unchanged whenever the adapter
is unavailable, holds no sensor, or the angle read fails; and an adapter whose
sensor failed to construct still reports position 0.5 and `isAvailable() ==
false` after any number of updates, whatever the transport would return. -/
theorem update_keeps_state_on_failure (s : LidSensor) (io : GetReport) (sys : HidSystem)
    (ios : List GetReport) :
    ((s.m_available = false ∨ s.m_sensor = none ∨
        ∃ sensor e, s.m_sensor = some sensor ∧ sensor.readAngle io = .error e) →
      s.update io = s) ∧
    ((∃ e, LidAngleSensor.new sys = .error e) →
      ios.foldl LidSensor.update (LidSensor.new sys) = LidSensor.new sys ∧
      (ios.foldl LidSensor.update (LidSensor.new sys)).getSliderPosition = 1 / 2 ∧
      (ios.foldl LidSensor.update (LidSensor.new sys)).isAvailable = false) := by
  refine ⟨LidSensor.update_noop s io, ?_⟩
  rintro ⟨e, he⟩
  have hnew := LidSensor.new_of_error sys e he
  have hfold := LidSensor.foldl_update_unavailable ios (LidSensor.new sys) (by rw [hnew])
  rw [hfold, hnew]
  exact ⟨rfl, rfl, rfl⟩

/-- Witness for C5: an available adapter that reads a two-byte report keeps
its state, and the adapter built in a system without devices still reports 0.5
and unavailable after three updates with good reports. -/
theorem update_keeps_state_on_failure_witness :
    (LidSensor.new oneDeviceSystem).update shortReport = LidSensor.new oneDeviceSystem ∧
    ([goodReport, goodReport, goodReport].foldl LidSensor.update
        (LidSensor.new noDeviceSystem)).getSliderPosition = 1 / 2 ∧
    ([goodReport, goodReport, goodReport].foldl LidSensor.update
        (LidSensor.new noDeviceSystem)).isAvailable = false :=
  ⟨(update_keeps_state_on_failure (LidSensor.new oneDeviceSystem) shortReport noDeviceSystem
      [goodReport, goodReport, goodReport]).1
      (Or.inr (Or.inr ⟨{ pImpl := some { hidDevice := some 0, deviceInitialized := true } },
        .SensorReadException, rfl, rfl⟩)),
   ((update_keeps_state_on_failure (LidSensor.new oneDeviceSystem) shortReport noDeviceSystem
      [goodReport, goodReport, goodReport]).2
      ⟨.SensorNotSupportedException, rfl⟩).2⟩

end LidPong

/-! ## Simulation: control selection, counters and the game-over flag -/

namespace LidPongGame

open MacBookLidAngle LidPong

/-- An adapter update never changes the availability flag. -/
theorem sensor_update_available (s : LidSensor) (io : GetReport) :
    (s.update io).m_available = s.m_available := by
  simp only [LidSensor.update]
  split_ifs with h
  · rfl
  · split
    · rfl
    · split <;> rfl

/-- The collision block changes only the ball velocity and the two counters. -/
theorem resolveCollision_frame (g : Game) :
    (resolveCollision g).lives = g.lives ∧ (resolveCollision g).gameOver = g.gameOver ∧
    (resolveCollision g).slider = g.slider ∧ (resolveCollision g).sensor = g.sensor ∧
    (resolveCollision g).ball.active = g.ball.active ∧
    (resolveCollision g).ball.x = g.ball.x ∧ (resolveCollision g).ball.y = g.ball.y ∧
    (resolveCollision g).ball.radius = g.ball.radius ∧
    (resolveCollision g).ballSpeedMultiplier = g.ballSpeedMultiplier := by
  unfold resolveCollision
  split_ifs <;> simp

/-- The miss block changes only `lives`, the game-over flags and the ball. -/
theorem handleMiss_frame (g : Game) (r1 r2 : Nat) :
    (handleMiss g r1 r2).score = g.score ∧ (handleMiss g r1 r2).totalHits = g.totalHits ∧
    (handleMiss g r1 r2).slider = g.slider ∧ (handleMiss g r1 r2).sensor = g.sensor ∧
    (handleMiss g r1 r2).ballSpeedMultiplier = g.ballSpeedMultiplier := by
  simp only [handleMiss]
  split_ifs <;> simp

/-- The miss block keeps the lives invariant. -/
theorem handleMiss_lives_invariant (g : Game) (r1 r2 : Nat)
    (h : 0 ≤ g.lives ∧ (g.gameOver = true ↔ g.lives = 0)) :
    0 ≤ (handleMiss g r1 r2).lives ∧
      ((handleMiss g r1 r2).gameOver = true ↔ (handleMiss g r1 r2).lives = 0) := by
  obtain ⟨h0, hiff⟩ := h
  simp only [handleMiss]
  split_ifs with a b
  · simp only [Bool.and_eq_true, decide_eq_true_eq] at a
    dsimp only at b ⊢
    refine ⟨by omega, ?_⟩
    simp only [true_iff]
    omega
  · simp only [Bool.and_eq_true, decide_eq_true_eq] at a
    dsimp only at b ⊢
    have hne : g.lives ≠ 0 := by omega
    have hne1 : g.lives - 1 ≠ 0 := by omega
    refine ⟨by omega, ?_⟩
    simp only [hne1, iff_false]
    intro hgo
    exact hne (hiff.mp hgo)
  · exact ⟨h0, hiff⟩

/-- A tick from a running game is the collision and miss blocks applied to
the state in which the adapter, the slider and the ball have been advanced. -/
theorem update_running (g : Game) (inp : TickInput) (h : g.gameOver = false) :
    update g inp =
      handleMiss (resolveCollision
        { g with sensor := g.sensor.update inp.io,
                 currentLidAngle := (g.sensor.update inp.io).getCurrentAngle,
                 slider := g.slider.update inp.deltaTime
                   (lidPosition (g.sensor.update inp.io) inp.upKey inp.downKey),
                 ball := g.ball.update inp.deltaTime g.ballSpeedMultiplier }) inp.r1 inp.r2 := by
  simp [update, h]

/-- A tick from a finished game only refreshes the adapter and the shown angle. -/
theorem update_gameOver (g : Game) (inp : TickInput) (h : g.gameOver = true) :
    update g inp =
      { g with sensor := g.sensor.update inp.io,
               currentLidAngle := (g.sensor.update inp.io).getCurrentAngle } := by
  simp [update, h]

/-- No command changes the availability flag of the adapter. -/
theorem step_sensor_available (g : Game) (c : Command) :
    (step g c).sensor.m_available = g.sensor.m_available := by
  cases c with
  | space k r1 r2 =>
    simp only [step, handleSpace]
    split_ifs <;> rfl
  | speed inp => rfl
  | tick inp =>
    simp only [step]
    cases h : g.gameOver
    · rw [update_running g inp h, (handleMiss_frame _ _ _).2.2.2.1,
        (resolveCollision_frame _).2.2.2.1]
      exact sensor_update_available _ _
    · rw [update_gameOver g inp h]
      exact sensor_update_available _ _

/-- Availability of the adapter is constant along every command sequence. -/
theorem runCommands_sensor_available (cs : List Command) (g : Game) :
    (runCommands g cs).sensor.m_available = g.sensor.m_available := by
  induction cs generalizing g with
  | nil => rfl
  | cons c rest ih =>
    unfold runCommands at ih ⊢
    rw [List.foldl_cons, ih, step_sensor_available]

/-- C6: in every tick of a running game the paddle is updated with the control
value `lidPosition`; that value is the adapter's normalized position when the
sensor is available, and when it is unavailable it is 0.8 if the up key is
pressed, otherwise 0.2 if the down key is pressed, otherwise 0.5. With the
sensor unavailable at some point it stays unavailable after any commands, and
in every later tick the control is the key-only value, one of 0.2, 0.5, 0.8,
whatever the transport returns and whatever angle the adapter holds. -/
theorem control_value_selection (g : Game) (inp : TickInput) (cs : List Command) :
    (g.gameOver = false →
      (update g inp).slider = g.slider.update inp.deltaTime
        (lidPosition (g.sensor.update inp.io) inp.upKey inp.downKey)) ∧
    (g.sensor.isAvailable = true →
      lidPosition (g.sensor.update inp.io) inp.upKey inp.downKey
        = (g.sensor.update inp.io).getSliderPosition) ∧
    (g.sensor.isAvailable = false →
      (runCommands g cs).sensor.isAvailable = false ∧
      ∀ (io : GetReport) (up down : Bool),
        lidPosition ((runCommands g cs).sensor.update io) up down
          = (if up then 8 / 10 else if down then 2 / 10 else 1 / 2) ∧
        (lidPosition ((runCommands g cs).sensor.update io) up down = 2 / 10 ∨
         lidPosition ((runCommands g cs).sensor.update io) up down = 1 / 2 ∨
         lidPosition ((runCommands g cs).sensor.update io) up down = 8 / 10)) := by
  refine ⟨?_, ?_, ?_⟩
  · intro h
    rw [update_running g inp h, (handleMiss_frame _ _ _).2.2.1,
      (resolveCollision_frame _).2.2.1]
  · intro h
    have h2 : (g.sensor.update inp.io).m_available = true := by
      rw [sensor_update_available]; exact h
    simp [lidPosition, LidSensor.isAvailable, h2]
  · intro h
    have h1 : (runCommands g cs).sensor.m_available = false := by
      rw [runCommands_sensor_available]; exact h
    refine ⟨h1, ?_⟩
    intro io up down
    have h2 : ((runCommands g cs).sensor.update io).m_available = false := by
      rw [sensor_update_available]; exact h1
    have e : lidPosition ((runCommands g cs).sensor.update io) up down
        = (if up then 8 / 10 else if down then 2 / 10 else 1 / 2) := by
      simp [lidPosition, LidSensor.isAvailable, h2]
    refine ⟨e, ?_⟩
    rw [e]
    cases up <;> cases down <;> simp

/-- Witness for C6: with one working device the first tick feeds the paddle
the adapter position; without a device the control after `sampleCommands` with
the up key held is the key-only value. -/
theorem control_value_selection_witness :
    (update (Game.new oneDeviceSystem) stallTick).slider
      = (Game.new oneDeviceSystem).slider.update stallTick.deltaTime
          (lidPosition ((Game.new oneDeviceSystem).sensor.update stallTick.io)
            stallTick.upKey stallTick.downKey) ∧
    lidPosition ((Game.new oneDeviceSystem).sensor.update stallTick.io)
        stallTick.upKey stallTick.downKey
      = ((Game.new oneDeviceSystem).sensor.update stallTick.io).getSliderPosition ∧
    (runCommands (Game.new noDeviceSystem) sampleCommands).sensor.isAvailable = false ∧
    lidPosition ((runCommands (Game.new noDeviceSystem) sampleCommands).sensor.update goodReport)
        true false
      = (if true then 8 / 10 else if false then 2 / 10 else 1 / 2) :=
  ⟨(control_value_selection (Game.new oneDeviceSystem) stallTick []).1 rfl,
   (control_value_selection (Game.new oneDeviceSystem) stallTick []).2.1 rfl,
   ((control_value_selection (Game.new noDeviceSystem) stallTick sampleCommands).2.2 rfl).1,
   (((control_value_selection (Game.new noDeviceSystem) stallTick sampleCommands).2.2 rfl).2
      goodReport true false).1⟩

/-- The invariant behind the game-over flag: `lives` is never negative and the
flag is set exactly when no life is left. -/
theorem step_lives_invariant (g : Game) (c : Command)
    (h : 0 ≤ g.lives ∧ (g.gameOver = true ↔ g.lives = 0)) :
    0 ≤ (step g c).lives ∧ ((step g c).gameOver = true ↔ (step g c).lives = 0) := by
  obtain ⟨h0, hiff⟩ := h
  cases c with
  | space k r1 r2 =>
    simp only [step, handleSpace]
    split_ifs with a b c
    · simp
    · exact ⟨h0, hiff⟩
    · exact ⟨h0, hiff⟩
    · exact ⟨h0, hiff⟩
  | speed inp => exact ⟨h0, hiff⟩
  | tick inp =>
    simp only [step]
    cases hg : g.gameOver
    · rw [update_running g inp hg]
      apply handleMiss_lives_invariant
      rw [(resolveCollision_frame _).1, (resolveCollision_frame _).2.1]
      exact ⟨h0, hiff⟩
    · rw [update_gameOver g inp hg]
      exact ⟨h0, by simpa [hg] using hiff⟩

/-- The lives invariant holds along every command sequence that starts in a
state satisfying it. -/
theorem runCommands_lives_invariant (cs : List Command) (g : Game)
    (h : 0 ≤ g.lives ∧ (g.gameOver = true ↔ g.lives = 0)) :
    0 ≤ (runCommands g cs).lives ∧
      ((runCommands g cs).gameOver = true ↔ (runCommands g cs).lives = 0) := by
  induction cs generalizing g with
  | nil => exact h
  | cons c rest ih =>
    unfold runCommands at ih ⊢
    rw [List.foldl_cons]
    exact ih _ (step_lives_invariant g c h)

/-- C7: in every state reachable from the initial game state (lives = 3,
gameOver = false) by any sequence of ticks, space-key blocks and speed inputs,
`gameOver` is true if and only if `lives == 0`. -/
theorem gameOver_iff_no_lives (g : Game) (h : Reachable g) :
    g.gameOver = true ↔ g.lives = 0 := by
  obtain ⟨sys, cs, rfl⟩ := h
  exact (runCommands_lives_invariant cs (Game.new sys) ⟨by simp [Game.new], by simp [Game.new]⟩).2

/-- Witness for C7: the state after `sampleCommands` from the game built
without a device is reachable, and the equivalence holds in it. -/
theorem gameOver_iff_no_lives_witness :
    Reachable (runCommands (Game.new noDeviceSystem) sampleCommands) ∧
    ((runCommands (Game.new noDeviceSystem) sampleCommands).gameOver = true ↔
      (runCommands (Game.new noDeviceSystem) sampleCommands).lives = 0) :=
  ⟨⟨noDeviceSystem, sampleCommands, rfl⟩,
   gameOver_iff_no_lives (runCommands (Game.new noDeviceSystem) sampleCommands)
     ⟨noDeviceSystem, sampleCommands, rfl⟩⟩

/-- One command keeps `score` equal to `totalHits`. -/
theorem step_score_invariant (g : Game) (c : Command) (h : g.score = g.totalHits) :
    (step g c).score = (step g c).totalHits := by
  cases c with
  | space k r1 r2 =>
    simp only [step, handleSpace]
    split_ifs <;> simp [h]
  | speed inp => exact h
  | tick inp =>
    simp only [step]
    cases hg : g.gameOver
    · rw [update_running g inp hg, (handleMiss_frame _ _ _).1, (handleMiss_frame _ _ _).2.1]
      unfold resolveCollision
      split_ifs <;> simp [h]
    · rw [update_gameOver g inp hg]
      exact h

/-- The score invariant holds along every command sequence. -/
theorem runCommands_score_invariant (cs : List Command) (g : Game)
    (h : g.score = g.totalHits) :
    (runCommands g cs).score = (runCommands g cs).totalHits := by
  induction cs generalizing g with
  | nil => exact h
  | cons c rest ih =>
    unfold runCommands at ih ⊢
    rw [List.foldl_cons]
    exact ih _ (step_score_invariant g c h)

/-- C8: in every state reachable from the initial game state by any sequence
of ticks, space-key blocks and speed inputs, `score == totalHits`. -/
theorem score_eq_totalHits (g : Game) (h : Reachable g) : g.score = g.totalHits := by
  obtain ⟨sys, cs, rfl⟩ := h
  exact runCommands_score_invariant cs (Game.new sys) rfl

/-- Witness for C8: the state after `sampleCommands` from the game built with
one working device is reachable, and score equals totalHits in it. -/
theorem score_eq_totalHits_witness :
    Reachable (runCommands (Game.new oneDeviceSystem) sampleCommands) ∧
    (runCommands (Game.new oneDeviceSystem) sampleCommands).score
      = (runCommands (Game.new oneDeviceSystem) sampleCommands).totalHits :=
  ⟨⟨oneDeviceSystem, sampleCommands, rfl⟩,
   score_eq_totalHits (runCommands (Game.new oneDeviceSystem) sampleCommands)
     ⟨oneDeviceSystem, sampleCommands, rfl⟩⟩

end LidPongGame

/-! ## Simulation: paddle hits and misses -/

namespace LidPongGame

open MacBookLidAngle LidPong

/-- C10: for every state with the ball active, `vx < 0` and the ball
overlapping the paddle box, one run of the collision block yields `vx > 0` and
increases `totalHits` by exactly 1 (and leaves `vy` unchanged when `ball.y`
equals the paddle centre and `|vy| <= 1.2`); the ball is then still active and
still overlapping the paddle, and running the collision block again does not
change `totalHits`. -/
theorem paddle_hit_counts_once (g : Game) (hact : g.ball.active = true)
    (hvx : g.ball.vx < 0) (hcol : g.slider.checkCollision g.ball = true) :
    0 < (resolveCollision g).ball.vx ∧
    (resolveCollision g).totalHits = g.totalHits + 1 ∧
    (g.ball.y = g.slider.y → |g.ball.vy| ≤ 12 / 10 →
      (resolveCollision g).ball.vy = g.ball.vy) ∧
    (resolveCollision g).ball.active = true ∧
    (resolveCollision g).slider.checkCollision (resolveCollision g).ball = true ∧
    (resolveCollision (resolveCollision g)).totalHits = (resolveCollision g).totalHits := by
  have hpos : 0 < |g.ball.vx| := abs_pos.mpr (ne_of_lt hvx)
  have hone : resolveCollision g =
      { g with ball := { g.ball with
                 vx := |g.ball.vx|,
                 vy := (if (if g.ball.vy + (g.ball.y - g.slider.y) / (g.slider.height / 2) * (15 / 10)
                              > 12 / 10 then 12 / 10
                            else g.ball.vy + (g.ball.y - g.slider.y) / (g.slider.height / 2) * (15 / 10))
                          < -(12 / 10) then -(12 / 10)
                        else (if g.ball.vy + (g.ball.y - g.slider.y) / (g.slider.height / 2) * (15 / 10)
                              > 12 / 10 then 12 / 10
                            else g.ball.vy + (g.ball.y - g.slider.y) / (g.slider.height / 2) * (15 / 10))) },
               totalHits := g.totalHits + 1,
               score := g.totalHits + 1 } := by
    simp only [resolveCollision, hact, hcol, hvx, Bool.and_self, if_true]
  have hcol2 : (resolveCollision g).slider.checkCollision (resolveCollision g).ball = true := by
    rw [hone]
    simpa [Slider.checkCollision] using hcol
  refine ⟨?_, ?_, ?_, ?_, hcol2, ?_⟩
  · rw [hone]; exact hpos
  · rw [hone]
  · intro hy hvy
    obtain ⟨hlo, hhi⟩ := abs_le.mp hvy
    rw [hone]
    simp only [hy, sub_self, zero_div, zero_mul, add_zero]
    rw [if_neg (not_lt.mpr hhi), if_neg (not_lt.mpr hlo)]
  · rw [hone]; exact hact
  · have hnot : ¬ (resolveCollision g).ball.vx < 0 := by
      rw [hone]; exact not_lt.mpr (le_of_lt hpos)
    generalize resolveCollision g = q at hnot
    simp only [resolveCollision, hnot, if_false]
    split_ifs <;> rfl

/-- Witness for C10: `hitState` satisfies the three conditions, so its
collision block turns the ball and counts one hit. -/
theorem paddle_hit_counts_once_witness :
    0 < (resolveCollision hitState).ball.vx ∧
    (resolveCollision hitState).totalHits = hitState.totalHits + 1 ∧
    (resolveCollision (resolveCollision hitState)).totalHits
      = (resolveCollision hitState).totalHits :=
  have h := paddle_hit_counts_once hitState rfl
    (by norm_num [hitState])
    (by norm_num [hitState, Slider.checkCollision, Game.new, Slider.new])
  ⟨h.1, h.2.1, h.2.2.2.2.2⟩

/-- A tick of a running game, written with `afterMotion`. -/
theorem update_running_afterMotion (g : Game) (inp : TickInput) (h : g.gameOver = false) :
    update g inp = handleMiss (resolveCollision (afterMotion g inp)) inp.r1 inp.r2 :=
  update_running g inp h

/-- The miss block does nothing while the ball is active. -/
theorem handleMiss_active (q : Game) (r1 r2 : Nat) (h : q.ball.active = true) :
    handleMiss q r1 r2 = q := by
  simp [handleMiss, h]

/-- The miss block on the last life: the life is taken, the game ends, the
ball is not reset. -/
theorem handleMiss_last (q : Game) (r1 r2 : Nat) (h : q.ball.active = false)
    (h0 : 0 < q.lives) (h1 : q.lives - 1 ≤ 0) :
    handleMiss q r1 r2 =
      { q with lives := q.lives - 1, gameOver := true, showGameOverModal := true } := by
  simp only [handleMiss, h, Bool.not_false, Bool.true_and, decide_eq_true_eq]
  rw [if_pos (show q.lives > 0 from h0), if_pos h1]

/-- The miss block with lives to spare: the life is taken and the ball reset. -/
theorem handleMiss_reset (q : Game) (r1 r2 : Nat) (h : q.ball.active = false)
    (h1 : ¬ q.lives - 1 ≤ 0) :
    handleMiss q r1 r2 = { q with lives := q.lives - 1, ball := q.ball.reset r1 r2 } := by
  simp only [handleMiss, h, Bool.not_false, Bool.true_and, decide_eq_true_eq]
  rw [if_pos (show q.lives > 0 by omega), if_neg h1]

/-- The collision block does nothing when the tick is not a counted hit. -/
theorem resolveCollision_no_hit (q : Game)
    (h : (q.ball.active && q.slider.checkCollision q.ball && decide (q.ball.vx < 0)) = false) :
    resolveCollision q = q := by
  unfold resolveCollision
  split_ifs with a b
  · simp [a, b] at h
  · rfl
  · rfl

/-- Once the game is over, ticks change neither lives, flag, ball nor score,
and none of them is a miss, a hit or an automatic reset. -/
theorem runTicks_frozen (ts : List TickInput) (g : Game) (h : g.gameOver = true) :
    (runTicks g ts).lives = g.lives ∧ (runTicks g ts).gameOver = true ∧
    (runTicks g ts).ball = g.ball ∧ (runTicks g ts).score = g.score ∧
    countTicks tickMisses g ts = 0 ∧ countTicks tickAutoResets g ts = 0 ∧
    countTicks tickHits g ts = 0 := by
  induction ts generalizing g with
  | nil => exact ⟨rfl, h, rfl, rfl, rfl, rfl, rfl⟩
  | cons inp rest ih =>
    have hu := update_gameOver g inp h
    have hgo : (update g inp).gameOver = true := by rw [hu]; exact h
    obtain ⟨a1, a2, a3, a4, a5, a6, a7⟩ := ih (update g inp) hgo
    unfold runTicks at a1 a2 a3 a4 ⊢
    simp only [List.foldl_cons, countTicks, tickMisses, tickAutoResets, tickHits, h,
      Bool.not_true, Bool.false_and, Bool.false_eq_true, if_false, Nat.zero_add]
    refine ⟨?_, a2, ?_, ?_, a5, a6, a7⟩
    · rw [a1, hu]
    · rw [a3, hu]
    · rw [a4, hu]

/-- Bookkeeping of a run of ticks from a running state with an active ball:
every miss costs one life, the game is over exactly when the misses have used
up the lives, the ball is active exactly until then, and every miss but the
one that ends the game is followed by an automatic reset. -/
theorem runTicks_running (ts : List TickInput) (g : Game) (hg : g.gameOver = false)
    (ha : g.ball.active = true) (hl : 0 < g.lives) :
    (runTicks g ts).lives = g.lives - (countTicks tickMisses g ts : Int) ∧
    ((runTicks g ts).gameOver = true ↔ (countTicks tickMisses g ts : Int) = g.lives) ∧
    ((runTicks g ts).ball.active = true ↔ (countTicks tickMisses g ts : Int) < g.lives) ∧
    (countTicks tickAutoResets g ts : Int) =
      (if (runTicks g ts).gameOver = true then (countTicks tickMisses g ts : Int) - 1
       else (countTicks tickMisses g ts : Int)) := by
  induction ts generalizing g with
  | nil =>
    have hne : (0 : Int) ≠ g.lives := by omega
    simp [runTicks, countTicks, hg, ha, hl, hne]
  | cons inp rest ih =>
    have hq := resolveCollision_frame (afterMotion g inp)
    have hql : (resolveCollision (afterMotion g inp)).lives = g.lives := hq.1
    have hqg : (resolveCollision (afterMotion g inp)).gameOver = false := by
      rw [hq.2.1]; exact hg
    have hqa : (resolveCollision (afterMotion g inp)).ball.active
        = (afterMotion g inp).ball.active := hq.2.2.2.2.1
    have hu := update_running_afterMotion g inp hg
    have hfold : runTicks g (inp :: rest) = runTicks (update g inp) rest := rfl
    have hcm : countTicks tickMisses g (inp :: rest)
        = (if tickMisses g inp then 1 else 0) + countTicks tickMisses (update g inp) rest := rfl
    have hcr : countTicks tickAutoResets g (inp :: rest)
        = (if tickAutoResets g inp then 1 else 0)
          + countTicks tickAutoResets (update g inp) rest := rfl
    rw [hfold, hcm, hcr]
    cases hact : (afterMotion g inp).ball.active
    · -- the tick is a miss
      have hmiss : tickMisses g inp = true := by simp [tickMisses, hg, hact]
      by_cases hlast : g.lives - 1 ≤ 0
      · have hu2 := handleMiss_last (resolveCollision (afterMotion g inp)) inp.r1 inp.r2
          (by rw [hqa]; exact hact) (by rw [hql]; exact hl) (by rw [hql]; exact hlast)
        have hres : tickAutoResets g inp = false := by
          simp [tickAutoResets, hg, hql, hlast]
        have hgo : (update g inp).gameOver = true := by rw [hu, hu2]
        have hlv : (update g inp).lives = g.lives - 1 := by
          rw [hu, hu2]; exact congrArg (· - 1) hql
        have hba : (update g inp).ball.active = false := by
          rw [hu, hu2]; exact hqa.trans hact
        obtain ⟨f1, f2, f3, -, f5, f6, -⟩ := runTicks_frozen rest (update g inp) hgo
        rw [f1, f2, f3, f5, f6, hlv, hba, hmiss, hres]
        simp only [if_true, Bool.false_eq_true, if_false, Nat.add_zero, Nat.cast_one]
        refine ⟨trivial, ?_, ?_, by norm_num⟩
        · simp only [true_iff]; omega
        · simp only [false_iff]; omega
      · have hu2 := handleMiss_reset (resolveCollision (afterMotion g inp)) inp.r1 inp.r2
          (by rw [hqa]; exact hact) (by rw [hql]; exact hlast)
        have hres : tickAutoResets g inp = true := by
          simp only [tickAutoResets, hg, hql, hqa, hact, Bool.not_false, Bool.true_and,
            Bool.and_eq_true, decide_eq_true_eq, Bool.not_eq_true', decide_eq_false_iff_not]
          exact ⟨hl, hlast⟩
        have hgo : (update g inp).gameOver = false := by rw [hu, hu2]; exact hqg
        have hlv : (update g inp).lives = g.lives - 1 := by
          rw [hu, hu2]; exact congrArg (· - 1) hql
        have hba : (update g inp).ball.active = true := by rw [hu, hu2]; rfl
        obtain ⟨i1, i2, i3, i4⟩ := ih (update g inp) hgo hba (by omega)
        rw [hlv] at i1 i2 i3
        rw [hmiss, hres]
        simp only [if_true]
        generalize countTicks tickMisses (update g inp) rest = M at i1 i2 i3 i4 ⊢
        generalize countTicks tickAutoResets (update g inp) rest = R at i4 ⊢
        generalize (runTicks (update g inp) rest) = F at i1 i2 i3 i4 ⊢
        push_cast
        refine ⟨by omega, ?_, ?_, ?_⟩
        · rw [i2]; constructor <;> intro h <;> omega
        · rw [i3]; constructor <;> intro h <;> omega
        · rw [i4]; split_ifs <;> omega
    · -- the ball is still active: no life is lost
      have hmiss : tickMisses g inp = false := by simp [tickMisses, hg, hact]
      have hres : tickAutoResets g inp = false := by
        simp [tickAutoResets, hg, hqa, hact]
      have hu2 := handleMiss_active (resolveCollision (afterMotion g inp)) inp.r1 inp.r2
        (by rw [hqa]; exact hact)
      have hgo : (update g inp).gameOver = false := by rw [hu, hu2]; exact hqg
      have hlv : (update g inp).lives = g.lives := by rw [hu, hu2]; exact hql
      have hba : (update g inp).ball.active = true := by rw [hu, hu2, hqa]; exact hact
      obtain ⟨i1, i2, i3, i4⟩ := ih (update g inp) hgo hba (by omega)
      rw [hlv] at i1 i2 i3
      rw [hmiss, hres]
      simp only [Bool.false_eq_true, if_false, Nat.zero_add]
      exact ⟨i1, i2, i3, i4⟩

/-- A run of ticks without a counted paddle hit leaves the score as it was. -/
theorem runTicks_score_no_hits (ts : List TickInput) (g : Game)
    (h : countTicks tickHits g ts = 0) : (runTicks g ts).score = g.score := by
  induction ts generalizing g with
  | nil => rfl
  | cons inp rest ih =>
    have hfold : runTicks g (inp :: rest) = runTicks (update g inp) rest := rfl
    simp only [countTicks] at h
    have hrest : countTicks tickHits (update g inp) rest = 0 := by omega
    have hnow : tickHits g inp = false := by
      cases hh : tickHits g inp
      · rfl
      · rw [hh] at h; simp at h
    rw [hfold, ih _ hrest]
    cases hg : g.gameOver
    · rw [update_running_afterMotion g inp hg, (handleMiss_frame _ _ _).1]
      simp only [tickHits, hg, Bool.not_false, Bool.true_and] at hnow
      rw [resolveCollision_no_hit _ hnow]
      rfl
    · rw [update_gameOver g inp hg]

/-- C9: from the initial state (lives = 3), a run of ticks with exactly three
misses and no counted paddle hit performs exactly two automatic ball resets
and ends with lives = 0, gameOver = true, the ball inactive and score = 0;
and at every point of the run where fewer than three misses have happened,
say `k`, exactly `k` automatic resets have been performed, lives is `3 - k`,
the ball is active and gameOver is false. -/
theorem three_misses_end_the_game (sys : HidSystem) (ts : List TickInput)
    (hm : countTicks tickMisses (Game.new sys) ts = 3)
    (hh : countTicks tickHits (Game.new sys) ts = 0) :
    countTicks tickAutoResets (Game.new sys) ts = 2 ∧
    (runTicks (Game.new sys) ts).lives = 0 ∧
    (runTicks (Game.new sys) ts).gameOver = true ∧
    (runTicks (Game.new sys) ts).ball.active = false ∧
    (runTicks (Game.new sys) ts).score = 0 ∧
    ∀ (n k : Nat), countTicks tickMisses (Game.new sys) (ts.take n) = k → k < 3 →
      countTicks tickAutoResets (Game.new sys) (ts.take n) = k ∧
      (runTicks (Game.new sys) (ts.take n)).lives = 3 - (k : Int) ∧
      (runTicks (Game.new sys) (ts.take n)).ball.active = true ∧
      (runTicks (Game.new sys) (ts.take n)).gameOver = false := by
  have hinit : (Game.new sys).gameOver = false ∧ (Game.new sys).ball.active = true ∧
      (Game.new sys).lives = 3 ∧ (Game.new sys).score = 0 := ⟨rfl, rfl, rfl, rfl⟩
  obtain ⟨e1, e2, e3, e4⟩ := hinit
  obtain ⟨r1, r2, r3, r4⟩ := runTicks_running ts (Game.new sys) e1 e2 (by rw [e3]; norm_num)
  have hscore := runTicks_score_no_hits ts (Game.new sys) hh
  rw [hm] at r1 r2 r3 r4
  rw [e3] at r1 r2 r3
  have hgo : (runTicks (Game.new sys) ts).gameOver = true := r2.mpr (by norm_num)
  rw [if_pos hgo] at r4
  refine ⟨by omega, by rw [r1]; norm_num, hgo, ?_, by rw [hscore, e4], ?_⟩
  · cases hb : (runTicks (Game.new sys) ts).ball.active
    · rfl
    · have := r3.mp hb
      norm_num at this
  · intro n k hk hk3
    obtain ⟨p1, p2, p3, p4⟩ :=
      runTicks_running (ts.take n) (Game.new sys) e1 e2 (by rw [e3]; norm_num)
    rw [hk] at p1 p2 p3 p4
    rw [e3] at p1 p2 p3
    have hngo : (runTicks (Game.new sys) (ts.take n)).gameOver = false := by
      cases hb : (runTicks (Game.new sys) (ts.take n)).gameOver
      · rfl
      · have := p2.mp hb
        omega
    rw [hngo] at p4
    simp only [Bool.false_eq_true, if_false] at p4
    exact ⟨by omega, p1, p3.mpr (by omega), hngo⟩

/-- Witness for C9: `threeMissRun` from the game built without a device has
three misses and no hit, so it ends the game after two automatic resets. -/
theorem three_misses_end_the_game_witness :
    countTicks tickAutoResets (Game.new noDeviceSystem) threeMissRun = 2 ∧
    (runTicks (Game.new noDeviceSystem) threeMissRun).lives = 0 ∧
    (runTicks (Game.new noDeviceSystem) threeMissRun).gameOver = true ∧
    (runTicks (Game.new noDeviceSystem) threeMissRun).ball.active = false ∧
    (runTicks (Game.new noDeviceSystem) threeMissRun).score = 0 :=
  have h := three_misses_end_the_game noDeviceSystem threeMissRun
    (by
      norm_num [threeMissRun, countTicks, tickMisses, afterMotion, update, Game.new, stallTick,
        noDeviceSystem, LidSensor.new, LidAngleSensor.new, Impl.new, findLidAngleSensor,
        kIOReturnSuccess, LidSensor.update, LidSensor.getCurrentAngle, lidPosition,
        LidSensor.isAvailable, Ball.new, Ball.reset, Ball.update, Slider.new, Slider.update,
        resolveCollision, Slider.checkCollision, handleMiss])
    (by
      norm_num [threeMissRun, countTicks, tickHits, afterMotion, update, Game.new, stallTick,
        noDeviceSystem, LidSensor.new, LidAngleSensor.new, Impl.new, findLidAngleSensor,
        kIOReturnSuccess, LidSensor.update, LidSensor.getCurrentAngle, lidPosition,
        LidSensor.isAvailable, Ball.new, Ball.reset, Ball.update, Slider.new, Slider.update,
        resolveCollision, Slider.checkCollision, handleMiss])
  ⟨h.1, h.2.1, h.2.2.1, h.2.2.2.1, h.2.2.2.2.1⟩

end LidPongGame

/-! ## Simulation: ball reset, speed bounds, restart and the finished game -/

namespace LidPongGame

open MacBookLidAngle LidPong

/-- C11: for every prior ball state and every outcome of the two random draws,
`Ball::reset` yields an active ball at (0,0) with `vx` in {0.8, -0.8} and `vy`
in {0.6, -0.6}, hence a nonzero velocity with `vx^2 + vy^2 = 1` every time; a
second reset, with any two further draws, satisfies the same postcondition. The
radius is not touched. -/
theorem ball_reset_postcondition (b : Ball) (r1 r2 r3 r4 : Nat) :
    ((b.reset r1 r2).active = true ∧ (b.reset r1 r2).x = 0 ∧ (b.reset r1 r2).y = 0 ∧
      ((b.reset r1 r2).vx = 8 / 10 ∨ (b.reset r1 r2).vx = -(8 / 10)) ∧
      ((b.reset r1 r2).vy = 6 / 10 ∨ (b.reset r1 r2).vy = -(6 / 10)) ∧
      (b.reset r1 r2).vx ^ 2 + (b.reset r1 r2).vy ^ 2 = 1 ∧
      ((b.reset r1 r2).vx ≠ 0 ∧ (b.reset r1 r2).vy ≠ 0)) ∧
    (((b.reset r1 r2).reset r3 r4).active = true ∧ ((b.reset r1 r2).reset r3 r4).x = 0 ∧
      ((b.reset r1 r2).reset r3 r4).y = 0 ∧
      (((b.reset r1 r2).reset r3 r4).vx = 8 / 10 ∨ ((b.reset r1 r2).reset r3 r4).vx = -(8 / 10)) ∧
      (((b.reset r1 r2).reset r3 r4).vy = 6 / 10 ∨ ((b.reset r1 r2).reset r3 r4).vy = -(6 / 10)) ∧
      ((b.reset r1 r2).reset r3 r4).vx ^ 2 + ((b.reset r1 r2).reset r3 r4).vy ^ 2 = 1 ∧
      (((b.reset r1 r2).reset r3 r4).vx ≠ 0 ∧ ((b.reset r1 r2).reset r3 r4).vy ≠ 0)) ∧
    (b.reset r1 r2).radius = b.radius := by
  have key : ∀ (c : Ball) (p q : Nat),
      (c.reset p q).active = true ∧ (c.reset p q).x = 0 ∧ (c.reset p q).y = 0 ∧
      ((c.reset p q).vx = 8 / 10 ∨ (c.reset p q).vx = -(8 / 10)) ∧
      ((c.reset p q).vy = 6 / 10 ∨ (c.reset p q).vy = -(6 / 10)) ∧
      (c.reset p q).vx ^ 2 + (c.reset p q).vy ^ 2 = 1 ∧
      ((c.reset p q).vx ≠ 0 ∧ (c.reset p q).vy ≠ 0) := by
    intro c p q
    simp only [Ball.reset]
    split_ifs <;> norm_num
  exact ⟨key b r1 r2, key (b.reset r1 r2) r3 r4, rfl⟩

/-- The three clamped adjustments of the speed-input block, for arbitrary
guards `c1`, `c2`, `c3` and an arbitrary dragged value `a`: a multiplier within
the bounds stays within them. -/
theorem speed_adjustments_bounds (c1 c2 c3 : Bool) (a m : ℚ) (h : 2 / 10 ≤ m ∧ m ≤ 3) :
    let m1 : ℚ := if c1 then (if (if a < 2 / 10 then 2 / 10 else a) > 3 then 3
      else (if a < 2 / 10 then 2 / 10 else a)) else m
    let m2 : ℚ := if c2 then (if m1 + 2 / 10 > 3 then 3 else m1 + 2 / 10) else m1
    let m3 : ℚ := if c3 then (if m2 - 2 / 10 < 2 / 10 then 2 / 10 else m2 - 2 / 10) else m2
    2 / 10 ≤ m3 ∧ m3 ≤ 3 := by
  obtain ⟨h1, h2⟩ := h
  intro m1 m2 m3
  have b1 : 2 / 10 ≤ m1 ∧ m1 ≤ 3 := by
    simp only [m1]
    split_ifs <;> constructor <;> linarith
  obtain ⟨b1l, b1u⟩ := b1
  have b2 : 2 / 10 ≤ m2 ∧ m2 ≤ 3 := by
    simp only [m2]
    split_ifs <;> constructor <;> linarith
  obtain ⟨b2l, b2u⟩ := b2
  simp only [m3]
  split_ifs <;> constructor <;> linarith

/-- The speed-input block keeps the multiplier within its bounds. -/
theorem handleSpeedSliderInput_bounds (g : Game) (inp : SpeedInput)
    (h : 2 / 10 ≤ g.ballSpeedMultiplier ∧ g.ballSpeedMultiplier ≤ 3) :
    2 / 10 ≤ (handleSpeedSliderInput g inp).ballSpeedMultiplier ∧
      (handleSpeedSliderInput g inp).ballSpeedMultiplier ≤ 3 :=
  speed_adjustments_bounds _ _ _ _ _ h

/-- Only the speed-input block changes the multiplier. -/
theorem step_speed_bounds (g : Game) (c : Command)
    (h : 2 / 10 ≤ g.ballSpeedMultiplier ∧ g.ballSpeedMultiplier ≤ 3) :
    2 / 10 ≤ (step g c).ballSpeedMultiplier ∧ (step g c).ballSpeedMultiplier ≤ 3 := by
  cases c with
  | space k r1 r2 =>
    simp only [step, handleSpace]
    split_ifs <;> exact h
  | speed inp => exact handleSpeedSliderInput_bounds g inp h
  | tick inp =>
    simp only [step]
    cases hg : g.gameOver
    · rw [update_running g inp hg, (handleMiss_frame _ _ _).2.2.2.2,
        (resolveCollision_frame _).2.2.2.2.2.2.2.2]
      exact h
    · rw [update_gameOver g inp hg]
      exact h

/-- The multiplier bounds hold along every command sequence. -/
theorem runCommands_speed_bounds (cs : List Command) (g : Game)
    (h : 2 / 10 ≤ g.ballSpeedMultiplier ∧ g.ballSpeedMultiplier ≤ 3) :
    2 / 10 ≤ (runCommands g cs).ballSpeedMultiplier ∧
      (runCommands g cs).ballSpeedMultiplier ≤ 3 := by
  induction cs generalizing g with
  | nil => exact h
  | cons c rest ih =>
    unfold runCommands at ih ⊢
    rw [List.foldl_cons]
    exact ih _ (step_speed_bounds g c h)

/-- Any number of speed inputs keeps a multiplier that is within the bounds
within them. -/
theorem foldl_speed_bounds (is : List SpeedInput) (g : Game)
    (h : 2 / 10 ≤ g.ballSpeedMultiplier ∧ g.ballSpeedMultiplier ≤ 3) :
    2 / 10 ≤ (is.foldl handleSpeedSliderInput g).ballSpeedMultiplier ∧
      (is.foldl handleSpeedSliderInput g).ballSpeedMultiplier ≤ 3 := by
  induction is generalizing g with
  | nil => exact h
  | cons i rest ih =>
    rw [List.foldl_cons]
    exact ih _ (handleSpeedSliderInput_bounds g i h)

/-- C12: starting from the initial multiplier 0.6, in every state reachable by
ticks, space-key blocks and speed inputs (keyboard increment, keyboard
decrement, pointer drag) `ballSpeedMultiplier` lies in [0.2, 3.0], and it still
does after any further finite sequence of speed inputs. -/
theorem speed_multiplier_bounded (g : Game) (h : Reachable g) (is : List SpeedInput) :
    (2 / 10 ≤ g.ballSpeedMultiplier ∧ g.ballSpeedMultiplier ≤ 3) ∧
    (2 / 10 ≤ (is.foldl handleSpeedSliderInput g).ballSpeedMultiplier ∧
      (is.foldl handleSpeedSliderInput g).ballSpeedMultiplier ≤ 3) := by
  obtain ⟨sys, cs, rfl⟩ := h
  have h0 := runCommands_speed_bounds cs (Game.new sys) (by norm_num [Game.new])
  exact ⟨h0, foldl_speed_bounds is _ h0⟩

/-- Witness for C12: the state after `sampleCommands`, and two drags to the
right end of the slider with the plus key after it. -/
theorem speed_multiplier_bounded_witness :
    (2 / 10 ≤ (runCommands (Game.new noDeviceSystem) sampleCommands).ballSpeedMultiplier ∧
      (runCommands (Game.new noDeviceSystem) sampleCommands).ballSpeedMultiplier ≤ 3) ∧
    (2 / 10 ≤ ([dragRightInput, dragRightInput].foldl handleSpeedSliderInput
        (runCommands (Game.new noDeviceSystem) sampleCommands)).ballSpeedMultiplier ∧
      ([dragRightInput, dragRightInput].foldl handleSpeedSliderInput
        (runCommands (Game.new noDeviceSystem) sampleCommands)).ballSpeedMultiplier ≤ 3) :=
  speed_multiplier_bounded (runCommands (Game.new noDeviceSystem) sampleCommands)
    ⟨noDeviceSystem, sampleCommands, rfl⟩ [dragRightInput, dragRightInput]

/-- C13: a space-key press edge while `gameOver` is true sets score = 0,
lives = 3, totalHits = 0, gameOver = false and resets the ball to an active
centred ball, leaving the speed multiplier and the paddle unchanged; the same
press edge while `gameOver` is false leaves score, lives, totalHits and
gameOver unchanged. -/
theorem restart_only_when_game_over (g : Game) (r1 r2 : Nat) (hedge : g.spacePressed = false) :
    (g.gameOver = true →
      (handleSpace g true r1 r2).score = 0 ∧ (handleSpace g true r1 r2).lives = 3 ∧
      (handleSpace g true r1 r2).totalHits = 0 ∧ (handleSpace g true r1 r2).gameOver = false ∧
      (handleSpace g true r1 r2).ball = g.ball.reset r1 r2 ∧
      (handleSpace g true r1 r2).ball.active = true ∧
      (handleSpace g true r1 r2).ball.x = 0 ∧ (handleSpace g true r1 r2).ball.y = 0 ∧
      (handleSpace g true r1 r2).ballSpeedMultiplier = g.ballSpeedMultiplier ∧
      (handleSpace g true r1 r2).slider = g.slider) ∧
    (g.gameOver = false →
      (handleSpace g true r1 r2).score = g.score ∧ (handleSpace g true r1 r2).lives = g.lives ∧
      (handleSpace g true r1 r2).totalHits = g.totalHits ∧
      (handleSpace g true r1 r2).gameOver = false) := by
  constructor
  · intro hg
    simp [handleSpace, hedge, hg, Ball.reset]
  · intro hg
    simp only [handleSpace, hedge, hg, Bool.not_false, Bool.and_self, if_true,
      Bool.false_eq_true, if_false]
    split_ifs <;> first | exact ⟨rfl, rfl, rfl, rfl⟩ | exact ⟨rfl, rfl, rfl, hg⟩

/-- Witness for C13: the restart from `finishedState`, and the press edge in
the initial state. -/
theorem restart_only_when_game_over_witness :
    ((handleSpace finishedState true 1 0).score = 0 ∧
      (handleSpace finishedState true 1 0).lives = 3 ∧
      (handleSpace finishedState true 1 0).totalHits = 0 ∧
      (handleSpace finishedState true 1 0).gameOver = false) ∧
    (handleSpace (Game.new noDeviceSystem) true 1 0).lives = (Game.new noDeviceSystem).lives :=
  have a := (restart_only_when_game_over finishedState 1 0 rfl).1 rfl
  have b := (restart_only_when_game_over (Game.new noDeviceSystem) 1 0 rfl).2 rfl
  ⟨⟨a.1, a.2.1, a.2.2.1, a.2.2.2.1⟩, b.2.1⟩

/-- C14: for every state with `gameOver == true` and every tick input
(elapsed time, transport outcome, keys, draws), a simulation tick leaves the
ball (position, velocity, active flag), score, totalHits, lives and gameOver
unchanged. -/
theorem tick_frozen_when_game_over (g : Game) (inp : TickInput) (h : g.gameOver = true) :
    (update g inp).ball = g.ball ∧ (update g inp).score = g.score ∧
    (update g inp).totalHits = g.totalHits ∧ (update g inp).lives = g.lives ∧
    (update g inp).gameOver = true := by
  rw [update_gameOver g inp h]
  exact ⟨rfl, rfl, rfl, rfl, h⟩

/-- Witness for C14: a tick with the up key held in `finishedState`. -/
theorem tick_frozen_when_game_over_witness :
    (update finishedState upTick).ball = finishedState.ball ∧
    (update finishedState upTick).score = finishedState.score ∧
    (update finishedState upTick).totalHits = finishedState.totalHits ∧
    (update finishedState upTick).lives = finishedState.lives ∧
    (update finishedState upTick).gameOver = true :=
  tick_frozen_when_game_over finishedState upTick rfl

/-- C15, as the code has it: while `gameOver` is true the paddle does not track
input, a tick leaves the whole paddle (targetY and y included) unchanged; in a
tick with `gameOver` false the paddle's targetY is recomputed from the current
control value and its y moves toward it by `(targetY - y) * speed * deltaTime`. -/
theorem paddle_frozen_when_game_over (g : Game) (inp : TickInput) :
    (g.gameOver = true → (update g inp).slider = g.slider) ∧
    (g.gameOver = false →
      (update g inp).slider.targetY
        = (g.slider.update inp.deltaTime
            (lidPosition (g.sensor.update inp.io) inp.upKey inp.downKey)).targetY ∧
      (update g inp).slider.y
        = g.slider.y + ((update g inp).slider.targetY - g.slider.y) * g.slider.speed
            * inp.deltaTime) := by
  constructor
  · intro h
    rw [update_gameOver g inp h]
  · intro h
    rw [update_running g inp h, (handleMiss_frame _ _ _).2.2.1, (resolveCollision_frame _).2.2.1]
    exact ⟨rfl, rfl⟩

/-- Witness for C15 as amended: the paddle of `finishedState` ignores a tick
with the up key held, the paddle of the initial state follows it. -/
theorem paddle_frozen_when_game_over_witness :
    (update finishedState upTick).slider = finishedState.slider ∧
    (update (Game.new noDeviceSystem) upTick).slider.targetY
      = ((Game.new noDeviceSystem).slider.update upTick.deltaTime
          (lidPosition ((Game.new noDeviceSystem).sensor.update upTick.io)
            upTick.upKey upTick.downKey)).targetY :=
  ⟨(paddle_frozen_when_game_over finishedState upTick).1 rfl,
   ((paddle_frozen_when_game_over (Game.new noDeviceSystem) upTick).2 rfl).1⟩

/-- The game built without a device is in `finishedState` after `threeMissRun`. -/
theorem runTicks_threeMissRun :
    runTicks (Game.new noDeviceSystem) threeMissRun = finishedState := by
  norm_num [runTicks, threeMissRun, update, Game.new, stallTick, finishedState,
    noDeviceSystem, LidSensor.new, LidAngleSensor.new, Impl.new, findLidAngleSensor,
    kIOReturnSuccess, LidSensor.update, LidSensor.getCurrentAngle, lidPosition,
    LidSensor.isAvailable, Ball.new, Ball.reset, Ball.update, Slider.new, Slider.update,
    resolveCollision, Slider.checkCollision, handleMiss]

/-- Counterexample to C15 as stated: after `threeMissRun` the game is over; a
tick of a hundredth of a second with the up key held then leaves the paddle at
targetY = 0 and y = 0, whereas recomputing from the control value 0.8 would give
targetY = 0.85 and y = 0.102. -/
theorem paddle_tracks_during_game_over_counterexample :
    (runTicks (Game.new noDeviceSystem) threeMissRun).gameOver = true ∧
    lidPosition ((runTicks (Game.new noDeviceSystem) threeMissRun).sensor.update upTick.io)
      upTick.upKey upTick.downKey = 8 / 10 ∧
    (update (runTicks (Game.new noDeviceSystem) threeMissRun) upTick).slider.targetY = 0 ∧
    (update (runTicks (Game.new noDeviceSystem) threeMissRun) upTick).slider.y = 0 ∧
    ((runTicks (Game.new noDeviceSystem) threeMissRun).slider.update upTick.deltaTime
      (8 / 10)).targetY = 85 / 100 ∧
    ((runTicks (Game.new noDeviceSystem) threeMissRun).slider.update upTick.deltaTime
      (8 / 10)).y = 102 / 1000 := by
  rw [runTicks_threeMissRun]
  norm_num [finishedState, update, upTick, Game.new, noDeviceSystem, LidSensor.new,
    LidAngleSensor.new, Impl.new, findLidAngleSensor, kIOReturnSuccess, LidSensor.update,
    LidSensor.getCurrentAngle, lidPosition, LidSensor.isAvailable, Slider.new, Slider.update]

/-- A running state keeps an active ball across every command, given the lives invariant. -/
theorem step_running_invariant (g : Game) (c : Command)
    (h : (0 ≤ g.lives ∧ (g.gameOver = true ↔ g.lives = 0)) ∧
      (g.gameOver = false → g.ball.active = true)) :
    (0 ≤ (step g c).lives ∧ ((step g c).gameOver = true ↔ (step g c).lives = 0)) ∧
      ((step g c).gameOver = false → (step g c).ball.active = true) := by
  refine ⟨step_lives_invariant g c h.1, ?_⟩
  obtain ⟨⟨h0, hiff⟩, hact⟩ := h
  cases c with
  | space k r1 r2 =>
    simp only [step, handleSpace]
    split_ifs with a b c
    · intro _; rfl
    · intro _; rfl
    · intro hg
      cases hb : g.ball.active
      · rw [hb] at c; simp at c
      · rfl
    · exact hact
  | speed inp => exact hact
  | tick inp =>
    simp only [step]
    cases hg : g.gameOver
    · rw [update_running_afterMotion g inp hg]
      have hq := resolveCollision_frame (afterMotion g inp)
      have hql : (resolveCollision (afterMotion g inp)).lives = g.lives := hq.1
      have hl : 0 < g.lives := by
        rcases lt_or_eq_of_le h0 with h1 | h1
        · exact h1
        · have := hiff.mpr h1.symm
          rw [hg] at this
          cases this
      cases hb : (resolveCollision (afterMotion g inp)).ball.active
      · by_cases hlast : (resolveCollision (afterMotion g inp)).lives - 1 ≤ 0
        · rw [handleMiss_last _ _ _ hb (by rw [hql]; exact hl) hlast]
          intro hcon
          cases hcon
        · rw [handleMiss_reset _ _ _ hb hlast]
          intro _
          rfl
      · rw [handleMiss_active _ _ _ hb]
        intro _
        exact hb
    · rw [update_gameOver g inp hg]
      intro hcon
      rw [hg] at hcon
      cases hcon

/-- In every reachable state that is not game over the ball is active and at least one life is left. -/
theorem reachable_running (g : Game) (h : Reachable g) (hg : g.gameOver = false) :
    g.ball.active = true ∧ 0 < g.lives := by
  obtain ⟨sys, cs, rfl⟩ := h
  have key : ∀ (cs : List Command) (g : Game),
      ((0 ≤ g.lives ∧ (g.gameOver = true ↔ g.lives = 0)) ∧
        (g.gameOver = false → g.ball.active = true)) →
      ((0 ≤ (runCommands g cs).lives ∧
          ((runCommands g cs).gameOver = true ↔ (runCommands g cs).lives = 0)) ∧
        ((runCommands g cs).gameOver = false → (runCommands g cs).ball.active = true)) := by
    intro cs
    induction cs with
    | nil => intro g hinv; exact hinv
    | cons c rest ih =>
      intro g hinv
      unfold runCommands at ih ⊢
      rw [List.foldl_cons]
      exact ih _ (step_running_invariant g c hinv)
  obtain ⟨⟨k0, kiff⟩, kact⟩ := key cs (Game.new sys)
    ⟨⟨by simp [Game.new], by simp [Game.new]⟩, fun _ => rfl⟩
  refine ⟨kact hg, ?_⟩
  rcases lt_or_eq_of_le k0 with h1 | h1
  · exact h1
  · have := kiff.mpr h1.symm
    rw [hg] at this
    cases this

/-- An active ball leaves `Ball::update` inactive exactly when the integrated
position is past the paddle side. -/
theorem Ball.update_inactive_iff (b : Ball) (dt m : ℚ) (h : b.active = true) :
    (b.update dt m).active = false ↔ b.x + b.vx * dt * m + b.radius < -1 := by
  simp only [Ball.update, h, Bool.not_true, Bool.false_eq_true, if_false]
  split_ifs <;> dsimp only at * <;> simp only [h, Bool.true_eq_false, false_iff, true_iff,
    not_lt] <;> linarith

end LidPongGame

/-! ## Sensor protocol: discovery and construction -/

namespace MacBookLidAngle

/-- What `testDevice` checks: the open succeeds, the diagnostic read succeeds,
and the report length is at least three. -/
theorem testDevice_iff (c : Candidate) :
    testDevice c = true ↔
      c.testOpen = kIOReturnSuccess ∧ c.testReport.result = kIOReturnSuccess ∧
        3 ≤ c.testReport.reportLength := by
  unfold testDevice
  by_cases h : c.testOpen = kIOReturnSuccess
  · simp [h]
  · simp [h]

/-- The traced loop finds what the loop finds. -/
theorem findLoopTrace_fst (cs : List Candidate) (k : Nat) :
    (findLoopTrace cs k).1 = findLoop cs k := by
  induction cs generalizing k with
  | nil => rfl
  | cons c rest ih =>
    simp only [findLoopTrace, findLoop]
    split_ifs
    · rfl
    · exact ih (k + 1)

/-- The loop returns index `k + n` exactly when position `n` holds the first
candidate that passes `testDevice`. -/
theorem findLoop_eq_some_iff (cs : List Candidate) (k i : Nat) :
    findLoop cs k = some i ↔
      ∃ n, i = k + n ∧ (∃ c, cs[n]? = some c ∧ testDevice c = true) ∧
        ∀ j, j < n → ∀ c, cs[j]? = some c → testDevice c = false := by
  induction cs generalizing k with
  | nil => simp [findLoop]
  | cons c rest ih =>
    simp only [findLoop]
    by_cases hc : testDevice c = true
    · simp only [hc, if_true, Option.some.injEq]
      constructor
      · rintro rfl
        exact ⟨0, rfl, ⟨c, by simp, hc⟩, fun j hj => absurd hj (Nat.not_lt_zero j)⟩
      · rintro ⟨n, rfl, -, hall⟩
        cases n with
        | zero => rfl
        | succ n =>
          have := hall 0 (Nat.succ_pos n) c (by simp)
          rw [hc] at this
          cases this
    · simp only [hc, if_false, Bool.false_eq_true]
      rw [ih (k + 1)]
      have hcf : testDevice c = false := by
        cases h : testDevice c
        · rfl
        · exact absurd h hc
      constructor
      · rintro ⟨n, rfl, ⟨d, hd, hdt⟩, hall⟩
        refine ⟨n + 1, by omega, ⟨d, by simpa using hd, hdt⟩, ?_⟩
        intro j hj e he
        cases j with
        | zero =>
          simp at he
          rw [← he]; exact hcf
        | succ j => exact hall j (by omega) e (by simpa using he)
      · rintro ⟨n, rfl, ⟨d, hd, hdt⟩, hall⟩
        cases n with
        | zero =>
          simp at hd
          rw [hd] at hcf
          rw [hcf] at hdt
          cases hdt
        | succ n =>
          refine ⟨n, by omega, ⟨d, by simpa using hd, hdt⟩, ?_⟩
          intro j hj e he
          exact hall (j + 1) (by omega) e (by simpa using he)

/-- The loop returns nothing exactly when no candidate passes `testDevice`. -/
theorem findLoop_eq_none_iff (cs : List Candidate) (k : Nat) :
    findLoop cs k = none ↔ ∀ c ∈ cs, testDevice c = false := by
  induction cs generalizing k with
  | nil => simp [findLoop]
  | cons c rest ih =>
    simp only [findLoop]
    by_cases hc : testDevice c = true
    · simp [hc]
    · have hcf : testDevice c = false := by
        cases h : testDevice c
        · rfl
        · exact absurd h hc
      simp [hcf, ih (k + 1)]

/-- The indices on which the loop calls `testDevice`: from the start index up
to the found one, or all of them when nothing is found. -/
theorem findLoopTrace_snd (cs : List Candidate) (k : Nat) :
    (∀ i, findLoop cs k = some i → ∀ j, j ∈ (findLoopTrace cs k).2 ↔ k ≤ j ∧ j ≤ i) ∧
    (findLoop cs k = none → ∀ j, j ∈ (findLoopTrace cs k).2 ↔ k ≤ j ∧ j < k + cs.length) := by
  induction cs generalizing k with
  | nil => simp [findLoop, findLoopTrace]
  | cons c rest ih =>
    simp only [findLoop, findLoopTrace]
    by_cases hc : testDevice c = true
    · simp only [hc, if_true, Option.some.injEq]
      constructor
      · rintro i rfl j
        simp
        omega
      · intro h; cases h
    · simp only [hc, if_false, Bool.false_eq_true]
      obtain ⟨ih1, ih2⟩ := ih (k + 1)
      constructor
      · intro i hi j
        have hik : k + 1 ≤ i := by
          obtain ⟨n, hn, -⟩ := (findLoop_eq_some_iff rest (k + 1) i).mp hi
          omega
        rw [List.mem_cons, ih1 i hi j]
        omega
      · intro hn j
        rw [List.mem_cons, ih2 hn j, List.length_cons]
        omega

/-- C16: device discovery is first-match. With the manager created and
opened, for every list of candidate devices in enumeration order
`findLidAngleSensor` returns the first candidate that passes `testDevice`, that
is whose short-lived open succeeds and whose diagnostic read succeeds with a
report of length at least 3; `testDevice` is called on the candidates up to and
including that one and on no later one; and no device is returned if and only
if no candidate passes. -/
theorem findLidAngleSensor_first_match (sys : HidSystem) (ds : List Candidate)
    (hc : sys.managerCreated = true) (ho : sys.managerOpen = kIOReturnSuccess)
    (hd : sys.devices = some ds) :
    findLidAngleSensor sys = .ok (findLoop ds 0) ∧
    (findLoopTrace ds 0).1 = findLoop ds 0 ∧
    (∀ i, findLoop ds 0 = some i ↔
      (∃ c, ds[i]? = some c ∧ testDevice c = true) ∧
        ∀ j, j < i → ∀ c, ds[j]? = some c → testDevice c = false) ∧
    (∀ i, findLoop ds 0 = some i → ∀ j, j ∈ (findLoopTrace ds 0).2 ↔ j ≤ i) ∧
    (findLoop ds 0 = none ↔ ∀ c ∈ ds, testDevice c = false) ∧
    (∀ c : Candidate, testDevice c = true ↔
      c.testOpen = kIOReturnSuccess ∧ c.testReport.result = kIOReturnSuccess ∧
        3 ≤ c.testReport.reportLength) := by
  refine ⟨?_, findLoopTrace_fst ds 0, ?_, ?_, findLoop_eq_none_iff ds 0, testDevice_iff⟩
  · unfold findLidAngleSensor
    simp only [hc, ho, hd, Bool.not_true, Bool.false_eq_true, if_false, ne_eq, not_true_eq_false]
    cases ds with
    | nil => rfl
    | cons c rest => simp
  · intro i
    rw [findLoop_eq_some_iff ds 0 i]
    constructor
    · rintro ⟨n, hn, h1, h2⟩
      have : i = n := by omega
      subst this
      exact ⟨h1, h2⟩
    · rintro ⟨h1, h2⟩
      exact ⟨i, by omega, h1, h2⟩
  · intro i hi j
    rw [(findLoopTrace_snd ds 0).1 i hi j]
    omega

/-- Witness for C16: of `threeDevices` the second is returned, and only the
first two are tested. -/
theorem findLidAngleSensor_first_match_witness :
    findLidAngleSensor threeDeviceSystem = .ok (findLoop threeDevices 0) ∧
    findLoop threeDevices 0 = some 1 ∧
    (∀ j, j ∈ (findLoopTrace threeDevices 0).2 ↔ j ≤ 1) :=
  have h := findLidAngleSensor_first_match threeDeviceSystem threeDevices rfl rfl rfl
  ⟨h.1, rfl, h.2.2.2.1 1 rfl⟩

/-- C17, as the code has it: with the manager created and opened, construction
of the angle sensor fails with `SensorNotSupportedException` when no matching
candidate exists and also when candidates exist but every one of them fails
validation (the adapter `LidSensor` built over it then reports unavailable);
it fails with `SensorInitializationException` when the accepted candidate
cannot be opened; and it succeeds with an available sensor otherwise. -/
theorem construction_outcomes (sys : HidSystem) (hc : sys.managerCreated = true)
    (ho : sys.managerOpen = kIOReturnSuccess) :
    ((sys.devices = none ∨ sys.devices = some []) →
      Impl.new sys = .error .SensorNotSupportedException) ∧
    (∀ ds, sys.devices = some ds → (∀ c ∈ ds, testDevice c = false) →
      Impl.new sys = .error .SensorNotSupportedException ∧
      LidAngleSensor.new sys = .error .SensorNotSupportedException ∧
      (LidPong.LidSensor.new sys).isAvailable = false) ∧
    (∀ ds i, sys.devices = some ds → findLoop ds 0 = some i →
      sys.deviceOpen i ≠ kIOReturnSuccess →
      Impl.new sys = .error .SensorInitializationException) ∧
    (∀ ds i, sys.devices = some ds → findLoop ds 0 = some i →
      sys.deviceOpen i = kIOReturnSuccess →
      Impl.new sys = .ok { hidDevice := some i, deviceInitialized := true }) := by
  have hfind : ∀ ds, sys.devices = some ds → findLidAngleSensor sys = .ok (findLoop ds 0) := by
    intro ds hd
    unfold findLidAngleSensor
    simp only [hc, ho, hd, Bool.not_true, Bool.false_eq_true, if_false, ne_eq, not_true_eq_false]
    cases ds with
    | nil => rfl
    | cons c rest => simp
  have hnone : sys.devices = none → findLidAngleSensor sys = .ok none := by
    intro hd
    unfold findLidAngleSensor
    simp [hc, ho, hd]
  refine ⟨?_, ?_, ?_, ?_⟩
  · rintro (hd | hd)
    · simp [Impl.new, hnone hd]
    · simp [Impl.new, hfind [] hd, findLoop]
  · intro ds hd hall
    have hl : findLoop ds 0 = none := (findLoop_eq_none_iff ds 0).mpr hall
    have himpl : Impl.new sys = .error .SensorNotSupportedException := by
      simp [Impl.new, hfind ds hd, hl]
    have hsens : LidAngleSensor.new sys = .error .SensorNotSupportedException := by
      simp [LidAngleSensor.new, himpl]
    refine ⟨himpl, hsens, ?_⟩
    simp [LidPong.LidSensor.new, hsens, LidPong.LidSensor.isAvailable]
  · intro ds i hd hi hopen
    simp [Impl.new, hfind ds hd, hi, hopen]
  · intro ds i hd hi hopen
    simp [Impl.new, hfind ds hd, hi, hopen]

/-- Witness for C17 as amended: no device, one rejected device, one accepted
device that cannot be opened, one accepted device that opens. -/
theorem construction_outcomes_witness :
    Impl.new LidPong.noDeviceSystem = .error .SensorNotSupportedException ∧
    Impl.new rejectingSystem = .error .SensorNotSupportedException ∧
    Impl.new unopenableSystem = .error .SensorInitializationException ∧
    Impl.new LidPong.oneDeviceSystem = .ok { hidDevice := some 0, deviceInitialized := true } :=
  ⟨(construction_outcomes LidPong.noDeviceSystem rfl rfl).1 (Or.inr rfl),
   ((construction_outcomes rejectingSystem rfl rfl).2.1 _ rfl
      (fun c hc => by rw [List.mem_singleton] at hc; rw [hc]; rfl)).1,
   (construction_outcomes unopenableSystem rfl rfl).2.2.1 _ 0 rfl rfl (by decide),
   (construction_outcomes LidPong.oneDeviceSystem rfl rfl).2.2.2 _ 0 rfl rfl rfl⟩

/-- Counterexample to C17 as stated: in `rejectingSystem` a candidate exists
and fails validation, and construction of the sensor throws
`SensorNotSupportedException` instead of yielding an unavailable sensor. -/
theorem construction_fails_hard_counterexample :
    (∃ c, rejectingSystem.devices = some [c] ∧ testDevice c = false) ∧
    Impl.new rejectingSystem = .error .SensorNotSupportedException ∧
    LidAngleSensor.new rejectingSystem = .error .SensorNotSupportedException :=
  ⟨⟨_, rfl, rfl⟩, rfl, rfl⟩

/-- C18, evaluated at a failing input: for the successfully read report
`01 10 27 00 00 00 00 00` an available sensor returns 10000, which is outside
the documented range of 0 to 360 degrees. -/
theorem readAngle_exceeds_documented_range :
    Impl.readAngle { hidDevice := some 0, deviceInitialized := true } centidegreeReport
      = .ok 10000 ∧
    ¬ ((10000 : ℚ) ≤ 360) := by
  have hraw : rawValue ![1, 16, 39, 0, 0, 0, 0, 0] = 10000 := by decide
  constructor
  · simp [Impl.readAngle, Impl.isAvailable, kIOReturnSuccess, centidegreeReport, decodeAngle, hraw]
  · norm_num

end MacBookLidAngle

/-! ## Simulation: misses and the ball inside the field -/

namespace LidPongGame

open MacBookLidAngle LidPong

/-- C19: in every tick taken from a reachable state with `gameOver == false`,
the ball ends its integration step inactive exactly when `x + radius < -1.0`
after adding `vx * deltaTime * speedMultiplier`; `lives` decreases by exactly
one in that case and is unchanged otherwise; when the decrement leaves
`lives > 0` the ball is reset within the same tick (centred, active, game not
over), and when it leaves `lives == 0` `gameOver` becomes true and the ball is
not reset. -/
theorem miss_costs_one_life (g : Game) (inp : TickInput) (hr : Reachable g)
    (hg : g.gameOver = false) :
    ((afterMotion g inp).ball.active = false ↔
      g.ball.x + g.ball.vx * inp.deltaTime * g.ballSpeedMultiplier + g.ball.radius < -1) ∧
    (update g inp).lives
      = (if (afterMotion g inp).ball.active = false then g.lives - 1 else g.lives) ∧
    ((afterMotion g inp).ball.active = false → 0 < g.lives - 1 →
      (update g inp).ball = (afterMotion g inp).ball.reset inp.r1 inp.r2 ∧
      (update g inp).ball.x = 0 ∧ (update g inp).ball.y = 0 ∧
      (update g inp).ball.active = true ∧ (update g inp).gameOver = false) ∧
    ((afterMotion g inp).ball.active = false → g.lives - 1 = 0 →
      (update g inp).gameOver = true ∧ (update g inp).ball = (afterMotion g inp).ball ∧
      (update g inp).ball.active = false) := by
  obtain ⟨hact, hl⟩ := reachable_running g hr hg
  have hu := update_running_afterMotion g inp hg
  have hq := resolveCollision_frame (afterMotion g inp)
  have hql : (resolveCollision (afterMotion g inp)).lives = g.lives := hq.1
  have hqg : (resolveCollision (afterMotion g inp)).gameOver = false := by
    rw [hq.2.1]; exact hg
  have hqa : (resolveCollision (afterMotion g inp)).ball.active
      = (afterMotion g inp).ball.active := hq.2.2.2.2.1
  refine ⟨Ball.update_inactive_iff g.ball inp.deltaTime g.ballSpeedMultiplier hact, ?_, ?_, ?_⟩
  · cases hb : (afterMotion g inp).ball.active
    · simp only [if_true]
      by_cases hlast : (resolveCollision (afterMotion g inp)).lives - 1 ≤ 0
      · rw [hu, handleMiss_last _ _ _ (hqa.trans hb) (by rw [hql]; exact hl) hlast]
        exact congrArg (· - 1) hql
      · rw [hu, handleMiss_reset _ _ _ (hqa.trans hb) hlast]
        exact congrArg (· - 1) hql
    · simp only [Bool.true_eq_false, if_false]
      rw [hu, handleMiss_active _ _ _ (hqa.trans hb)]
      exact hql
  · intro hb hpos
    have hnl : ¬ (resolveCollision (afterMotion g inp)).lives - 1 ≤ 0 := by
      rw [hql]; omega
    have hno : resolveCollision (afterMotion g inp) = afterMotion g inp :=
      resolveCollision_no_hit _ (by rw [hb]; rfl)
    rw [hu, handleMiss_reset _ _ _ (hqa.trans hb) hnl, hno]
    exact ⟨rfl, rfl, rfl, rfl, hg⟩
  · intro hb hzero
    have hlast : (resolveCollision (afterMotion g inp)).lives - 1 ≤ 0 := by
      rw [hql]; omega
    have hno : resolveCollision (afterMotion g inp) = afterMotion g inp :=
      resolveCollision_no_hit _ (by rw [hb]; rfl)
    rw [hu, handleMiss_last _ _ _ (hqa.trans hb) (by rw [hql]; exact hl) hlast, hno]
    exact ⟨rfl, rfl, hb⟩

/-- The first `stallTick` from the game built without a device bounces the
ball off the top and right walls. -/
theorem update_new_stallTick :
    update (Game.new noDeviceSystem) stallTick =
      { Game.new noDeviceSystem with
        ball := { x := 96 / 100, y := 93 / 100, vx := -(8 / 10), vy := -(6 / 10),
                  radius := 2 / 100, active := true } } := by
  norm_num [update, Game.new, stallTick, noDeviceSystem, LidSensor.new, LidAngleSensor.new,
    Impl.new, findLidAngleSensor, kIOReturnSuccess, LidSensor.update,
    LidSensor.getCurrentAngle, lidPosition, LidSensor.isAvailable, Ball.new, Ball.update,
    Slider.new, Slider.update, resolveCollision, Slider.checkCollision, handleMiss]

/-- Witness for C19: the second `stallTick` is a miss with three lives, so one
life is taken and the ball is reset. -/
theorem miss_costs_one_life_witness :
    (afterMotion (update (Game.new noDeviceSystem) stallTick) stallTick).ball.active = false ∧
    (update (update (Game.new noDeviceSystem) stallTick) stallTick).ball.x = 0 ∧
    (update (update (Game.new noDeviceSystem) stallTick) stallTick).ball.y = 0 ∧
    (update (update (Game.new noDeviceSystem) stallTick) stallTick).ball.active = true ∧
    (update (update (Game.new noDeviceSystem) stallTick) stallTick).gameOver = false := by
  have hr : Reachable (update (Game.new noDeviceSystem) stallTick) :=
    ⟨noDeviceSystem, [.tick stallTick], rfl⟩
  have hg : (update (Game.new noDeviceSystem) stallTick).gameOver = false := by
    rw [update_new_stallTick]; rfl
  have hm : (afterMotion (update (Game.new noDeviceSystem) stallTick) stallTick).ball.active
      = false := by
    rw [update_new_stallTick]
    norm_num [afterMotion, stallTick, Game.new, Ball.update]
  have hp : 0 < (update (Game.new noDeviceSystem) stallTick).lives - 1 := by
    rw [update_new_stallTick]; norm_num [Game.new]
  have t := (miss_costs_one_life (update (Game.new noDeviceSystem) stallTick) stallTick
    hr hg).2.2.1 hm hp
  exact ⟨hm, t.2.1, t.2.2.1, t.2.2.2.1, t.2.2.2.2⟩

/-- The fields of an active ball after `Ball::update`, one by one. -/
theorem Ball.update_active_fields (b : Ball) (dt m : ℚ) (h : b.active = true) :
    (b.update dt m).radius = b.radius ∧
    (b.update dt m).vy
      = (if b.y + b.vy * dt * m + b.radius > 95 / 100 ∨
            b.y + b.vy * dt * m - b.radius < -(95 / 100) then -b.vy else b.vy) ∧
    (b.update dt m).vx
      = (if b.x + b.vx * dt * m + b.radius > 98 / 100 then -b.vx else b.vx) ∧
    (b.update dt m).x
      = (if b.x + b.vx * dt * m + b.radius > 98 / 100 then 98 / 100 - b.radius
         else b.x + b.vx * dt * m) ∧
    (b.update dt m).y
      = (if b.y + b.vy * dt * m + b.radius > 95 / 100 ∨
            b.y + b.vy * dt * m - b.radius < -(95 / 100) then
          (if (if b.y + b.vy * dt * m + b.radius > 95 / 100 then 95 / 100 - b.radius
                else b.y + b.vy * dt * m) - b.radius < -(95 / 100) then -(95 / 100) + b.radius
           else (if b.y + b.vy * dt * m + b.radius > 95 / 100 then 95 / 100 - b.radius
                else b.y + b.vy * dt * m))
         else b.y + b.vy * dt * m) := by
  simp only [Ball.update, h, Bool.not_true, Bool.false_eq_true, if_false]
  by_cases hc : b.y + b.vy * dt * m + b.radius > 95 / 100 ∨
      b.y + b.vy * dt * m - b.radius < -(95 / 100)
  · by_cases ht : b.y + b.vy * dt * m + b.radius > 95 / 100
    · by_cases hb : 95 / 100 - b.radius - b.radius < -(95 / 100)
      · by_cases hx : b.x + b.vx * dt * m + b.radius > 98 / 100
        · simp [hc, ht, hb, hx]
          split_ifs <;> simp
        · simp [hc, ht, hb, hx]
          split_ifs <;> simp
      · by_cases hx : b.x + b.vx * dt * m + b.radius > 98 / 100
        · simp [hc, ht, hb, hx]
          split_ifs <;> simp
        · simp [hc, ht, hb, hx]
          split_ifs <;> simp
    · by_cases hb : b.y + b.vy * dt * m - b.radius < -(95 / 100)
      · by_cases hx : b.x + b.vx * dt * m + b.radius > 98 / 100
        · simp [hc, ht, hb, hx]
          split_ifs <;> simp
        · simp [hc, ht, hb, hx]
          split_ifs <;> simp
      · exact absurd hc (by simp [ht, hb])
  · by_cases hx : b.x + b.vx * dt * m + b.radius > 98 / 100
    · simp [hc, hx]
      split_ifs <;> simp
    · simp [hc, hx]
      split_ifs <;> simp

/-- C20: for every active ball (its radius, the constant 0.02 of the
constructor, is only required to be at most 0.95), every deltaTime and every
speed multiplier, after `Ball::update` the ball satisfies `y + radius <= 0.95`,
`y - radius >= -0.95` and `x + radius <= 0.98`; `vy` is negated exactly when the
integrated position crossed the top or bottom boundary and `vx` exactly when it
crossed the right wall at 0.98; an inactive ball is left completely unchanged. -/
theorem ball_update_stays_in_field (b : Ball) (dt m : ℚ) (hr : b.radius ≤ 95 / 100) :
    (b.active = true →
      (b.update dt m).y + (b.update dt m).radius ≤ 95 / 100 ∧
      (b.update dt m).y - (b.update dt m).radius ≥ -(95 / 100) ∧
      (b.update dt m).x + (b.update dt m).radius ≤ 98 / 100 ∧
      (b.update dt m).vy
        = (if b.y + b.vy * dt * m + b.radius > 95 / 100 ∨
              b.y + b.vy * dt * m - b.radius < -(95 / 100) then -b.vy else b.vy) ∧
      (b.update dt m).vx
        = (if b.x + b.vx * dt * m + b.radius > 98 / 100 then -b.vx else b.vx)) ∧
    (b.active = false → b.update dt m = b) := by
  constructor
  · intro h
    obtain ⟨fr, fvy, fvx, fx, fy⟩ := Ball.update_active_fields b dt m h
    refine ⟨?_, ?_, ?_, fvy, fvx⟩
    · rw [fy, fr]
      split_ifs with h1 h2 h3 h4 <;>
        first
          | linarith
          | (push_neg at h1; linarith [h1.1, h1.2])
    · rw [fy, fr]
      split_ifs with h1 h2 h3 h4 <;>
        first
          | linarith
          | (push_neg at h1; linarith [h1.1, h1.2])
    · rw [fx, fr]
      split_ifs with h1
      · linarith
      · linarith
  · intro h
    simp [Ball.update, h]

/-- Witness for C20: the ball of the constructor after five seconds at
multiplier 0.6. -/
theorem ball_update_stays_in_field_witness :
    (Ball.new.update 5 (6 / 10)).y + (Ball.new.update 5 (6 / 10)).radius ≤ 95 / 100 ∧
    (Ball.new.update 5 (6 / 10)).y - (Ball.new.update 5 (6 / 10)).radius ≥ -(95 / 100) ∧
    (Ball.new.update 5 (6 / 10)).x + (Ball.new.update 5 (6 / 10)).radius ≤ 98 / 100 :=
  have h := (ball_update_stays_in_field Ball.new 5 (6 / 10) (by norm_num [Ball.new])).1 rfl
  ⟨h.1, h.2.1, h.2.2.1⟩

end LidPongGame

/-! ## Simulation: spin, paddle motion and the horizontal speed -/

namespace LidPongGame

open MacBookLidAngle LidPong

/-- The collision block, field by field, when the hit is counted. -/
theorem resolveCollision_hit (q : Game) (ha : q.ball.active = true)
    (hc : q.slider.checkCollision q.ball = true) (hv : q.ball.vx < 0) :
    (resolveCollision q).ball.vx = |q.ball.vx| ∧
    (resolveCollision q).ball.vy
      = (if (if q.ball.vy + (q.ball.y - q.slider.y) / (q.slider.height / 2) * (15 / 10) > 12 / 10
              then 12 / 10
              else q.ball.vy + (q.ball.y - q.slider.y) / (q.slider.height / 2) * (15 / 10))
            < -(12 / 10) then -(12 / 10)
         else (if q.ball.vy + (q.ball.y - q.slider.y) / (q.slider.height / 2) * (15 / 10) > 12 / 10
              then 12 / 10
              else q.ball.vy + (q.ball.y - q.slider.y) / (q.slider.height / 2) * (15 / 10))) := by
  simp only [resolveCollision, ha, hc, hv, Bool.and_self, if_true]
  exact ⟨trivial, trivial⟩

/-- The two clamping assignments after a hit are the clamp to [-1.2, 1.2]. -/
theorem hit_clamp_eq (v : ℚ) :
    (if (if v > 12 / 10 then 12 / 10 else v) < -(12 / 10) then -(12 / 10)
      else (if v > 12 / 10 then 12 / 10 else v))
      = LidPong.clamp v (-(12 / 10)) (12 / 10) ∧
    LidPong.clamp v (-(12 / 10)) (12 / 10) = max (-(12 / 10)) (min (12 / 10) v) ∧
    -(12 / 10) ≤ LidPong.clamp v (-(12 / 10)) (12 / 10) ∧
    LidPong.clamp v (-(12 / 10)) (12 / 10) ≤ 12 / 10 := by
  unfold LidPong.clamp
  refine ⟨?_, ?_, ?_, ?_⟩
  · split_ifs <;> first | rfl | (exfalso; linarith)
  · by_cases h1 : v < -(12 / 10)
    · rw [if_pos h1, min_eq_right (by linarith), max_eq_left (by linarith)]
    · by_cases h2 : (12 : ℚ) / 10 < v
      · rw [if_neg h1, if_pos h2, min_eq_left (by linarith), max_eq_right (by norm_num)]
      · rw [if_neg h1, if_neg h2, min_eq_right (by linarith), max_eq_right (by linarith)]
  · split_ifs <;> linarith
  · split_ifs <;> linarith

/-- C21: for every counted paddle hit (ball active, overlapping the paddle,
`vx < 0`) the new vertical velocity is
`clamp(vy + 1.5 * (ball.y - paddle.y) / (paddle.height / 2), -1.2, 1.2)`, so
after a hit `vy` lies in [-1.2, 1.2]; the added spin is a constant multiple of
the ball's offset from the paddle centre; and a tick that counts a hit leaves
exactly this value in the ball. -/
theorem hit_spin_is_clamped (g : Game) (inp : TickInput) (hact : g.ball.active = true)
    (hvx : g.ball.vx < 0) (hcol : g.slider.checkCollision g.ball = true) :
    (resolveCollision g).ball.vy
      = LidPong.clamp (g.ball.vy + 15 / 10 * (g.ball.y - g.slider.y) / (g.slider.height / 2))
          (-(12 / 10)) (12 / 10) ∧
    (resolveCollision g).ball.vy
      = max (-(12 / 10))
          (min (12 / 10) (g.ball.vy + 15 / 10 * (g.ball.y - g.slider.y) / (g.slider.height / 2))) ∧
    -(12 / 10) ≤ (resolveCollision g).ball.vy ∧ (resolveCollision g).ball.vy ≤ 12 / 10 ∧
    15 / 10 * (g.ball.y - g.slider.y) / (g.slider.height / 2)
      = (15 / 10 / (g.slider.height / 2)) * (g.ball.y - g.slider.y) ∧
    (tickHits g inp = true →
      (update g inp).ball.vy
        = LidPong.clamp ((afterMotion g inp).ball.vy
            + 15 / 10 * ((afterMotion g inp).ball.y - (afterMotion g inp).slider.y)
              / ((afterMotion g inp).slider.height / 2))
            (-(12 / 10)) (12 / 10)) := by
  have key : ∀ q : Game, q.ball.active = true → q.slider.checkCollision q.ball = true →
      q.ball.vx < 0 →
      (resolveCollision q).ball.vy
        = LidPong.clamp (q.ball.vy + 15 / 10 * (q.ball.y - q.slider.y) / (q.slider.height / 2))
            (-(12 / 10)) (12 / 10) := by
    intro q ha hc hv
    rw [(resolveCollision_hit q ha hc hv).2, (hit_clamp_eq _).1]
    congr 1
    ring
  have hb := hit_clamp_eq (g.ball.vy + 15 / 10 * (g.ball.y - g.slider.y) / (g.slider.height / 2))
  have hk := key g hact hcol hvx
  refine ⟨hk, by rw [hk]; exact hb.2.1, by rw [hk]; exact hb.2.2.1, by rw [hk]; exact hb.2.2.2,
    by ring, ?_⟩
  intro hh
  simp only [tickHits, Bool.and_eq_true, Bool.not_eq_true', decide_eq_true_eq] at hh
  obtain ⟨hg, ⟨ha, hc⟩, hv⟩ := hh
  rw [update_running_afterMotion g inp hg]
  have hqa : (resolveCollision (afterMotion g inp)).ball.active = true := by
    rw [(resolveCollision_frame _).2.2.2.2.1]; exact ha
  rw [handleMiss_active _ _ _ hqa]
  exact key _ ha hc hv

/-- Sample evaluation: a tick of zero length in `hitState` counts a hit. -/
theorem tickHits_hitState : tickHits hitState zeroTick = true := by
  norm_num [tickHits, afterMotion, hitState, zeroTick, Game.new, noDeviceSystem,
    LidSensor.new, LidAngleSensor.new, Impl.new, findLidAngleSensor,
    kIOReturnSuccess, LidSensor.update, LidSensor.getCurrentAngle, lidPosition,
    LidSensor.isAvailable, Ball.update, Slider.new, Slider.update, Slider.checkCollision]

/-- Witness for C21: the hit in `hitState`, also as the tick `zeroTick`. -/
theorem hit_spin_is_clamped_witness :
    (-(12 / 10) ≤ (resolveCollision hitState).ball.vy ∧
      (resolveCollision hitState).ball.vy ≤ 12 / 10) ∧
    (update hitState zeroTick).ball.vy
      = LidPong.clamp ((afterMotion hitState zeroTick).ball.vy
          + 15 / 10 * ((afterMotion hitState zeroTick).ball.y
              - (afterMotion hitState zeroTick).slider.y)
            / ((afterMotion hitState zeroTick).slider.height / 2))
          (-(12 / 10)) (12 / 10) :=
  have h := hit_spin_is_clamped hitState zeroTick rfl
    (by norm_num [hitState])
    (by norm_num [hitState, Slider.checkCollision, Game.new, Slider.new])
  ⟨⟨h.2.2.1, h.2.2.2.1⟩, h.2.2.2.2.2 tickHits_hitState⟩

/-- The fields of the paddle after `Slider::update`, one by one. -/
theorem Slider.update_fields (s : Slider) (dt p : ℚ) :
    (s.update dt p).targetY = LidPong.clamp ((p - 1 / 2) * 4 * (85 / 100)) (-(85 / 100)) (85 / 100) ∧
    (s.update dt p).y = s.y + ((s.update dt p).targetY - s.y) * s.speed * dt ∧
    (s.update dt p).x = s.x ∧ (s.update dt p).width = s.width ∧
    (s.update dt p).height = s.height ∧ (s.update dt p).speed = s.speed := by
  refine ⟨?_, rfl, rfl, rfl, rfl, rfl⟩
  simp only [Slider.update, LidPong.clamp]
  split_ifs <;> first | rfl | (exfalso; linarith)

/-- The target of the paddle always lies within the field. -/
theorem Slider.update_targetY_bounds (s : Slider) (dt p : ℚ) :
    -(85 / 100) ≤ (s.update dt p).targetY ∧ (s.update dt p).targetY ≤ 85 / 100 := by
  rw [(Slider.update_fields s dt p).1]
  unfold LidPong.clamp
  constructor <;> split_ifs <;> linarith

/-- No command changes the position, size or speed constants of the paddle. -/
theorem step_slider_constants (g : Game) (c : Command) :
    (step g c).slider.x = g.slider.x ∧ (step g c).slider.width = g.slider.width ∧
    (step g c).slider.height = g.slider.height ∧ (step g c).slider.speed = g.slider.speed := by
  cases c with
  | space k r1 r2 =>
    simp only [step, handleSpace]
    split_ifs <;> exact ⟨rfl, rfl, rfl, rfl⟩
  | speed inp => exact ⟨rfl, rfl, rfl, rfl⟩
  | tick inp =>
    simp only [step]
    cases hg : g.gameOver
    · rw [update_running g inp hg, (handleMiss_frame _ _ _).2.2.1,
        (resolveCollision_frame _).2.2.1]
      exact ⟨rfl, rfl, rfl, rfl⟩
    · rw [update_gameOver g inp hg]
      exact ⟨rfl, rfl, rfl, rfl⟩

/-- In every reachable state the paddle has the constants of its constructor. -/
theorem reachable_slider_constants (g : Game) (h : Reachable g) :
    g.slider.x = -(95 / 100) ∧ g.slider.width = 2 / 100 ∧ g.slider.height = 6 / 10 ∧
    g.slider.speed = 12 := by
  obtain ⟨sys, cs, rfl⟩ := h
  have key : ∀ (cs : List Command) (g : Game),
      (runCommands g cs).slider.x = g.slider.x ∧
      (runCommands g cs).slider.width = g.slider.width ∧
      (runCommands g cs).slider.height = g.slider.height ∧
      (runCommands g cs).slider.speed = g.slider.speed := by
    intro cs
    induction cs with
    | nil => intro g; exact ⟨rfl, rfl, rfl, rfl⟩
    | cons c rest ih =>
      intro g
      unfold runCommands at ih ⊢
      rw [List.foldl_cons]
      obtain ⟨a1, a2, a3, a4⟩ := ih (step g c)
      obtain ⟨b1, b2, b3, b4⟩ := step_slider_constants g c
      exact ⟨a1.trans b1, a2.trans b2, a3.trans b3, a4.trans b4⟩
  obtain ⟨k1, k2, k3, k4⟩ := key cs (Game.new sys)
  exact ⟨k1, k2, k3, k4⟩

/-- C22: for every control value `p`, paddle and deltaTime, `Slider::update`
sets `targetY = clamp((p - 0.5) * 4 * 0.85, -0.85, 0.85)`, so `targetY` lies in
[-0.85, 0.85], and sets the new `y` to `y + (targetY - y) * speed * deltaTime`,
which is `y + (targetY - y) * 12 * deltaTime` for the speed 12 that the paddle
has in every reachable state; `x`, `width`, `height` and `speed` are unchanged. -/
theorem slider_update_spec (s : Slider) (dt p : ℚ) (g : Game) (inp : TickInput) :
    (s.update dt p).targetY
      = LidPong.clamp ((p - 1 / 2) * 4 * (85 / 100)) (-(85 / 100)) (85 / 100) ∧
    (s.update dt p).targetY = max (-(85 / 100)) (min (85 / 100) ((p - 1 / 2) * 4 * (85 / 100))) ∧
    (-(85 / 100) ≤ (s.update dt p).targetY ∧ (s.update dt p).targetY ≤ 85 / 100) ∧
    (s.update dt p).y = s.y + ((s.update dt p).targetY - s.y) * s.speed * dt ∧
    (s.speed = 12 → (s.update dt p).y = s.y + ((s.update dt p).targetY - s.y) * 12 * dt) ∧
    ((s.update dt p).x = s.x ∧ (s.update dt p).width = s.width ∧
      (s.update dt p).height = s.height ∧ (s.update dt p).speed = s.speed) ∧
    (Reachable g → g.slider.speed = 12 ∧
      (g.slider.update inp.deltaTime p).y
        = g.slider.y + ((g.slider.update inp.deltaTime p).targetY - g.slider.y) * 12
            * inp.deltaTime) := by
  obtain ⟨f1, f2, f3, f4, f5, f6⟩ := Slider.update_fields s dt p
  refine ⟨f1, ?_, Slider.update_targetY_bounds s dt p, f2, ?_, ⟨f3, f4, f5, f6⟩, ?_⟩
  · rw [f1]
    unfold LidPong.clamp
    by_cases h1 : (p - 1 / 2) * 4 * (85 / 100) < -(85 / 100)
    · rw [if_pos h1, min_eq_right (by linarith), max_eq_left (by linarith)]
    · by_cases h2 : (85 : ℚ) / 100 < (p - 1 / 2) * 4 * (85 / 100)
      · rw [if_neg h1, if_pos h2, min_eq_left (by linarith), max_eq_right (by norm_num)]
      · rw [if_neg h1, if_neg h2, min_eq_right (by linarith), max_eq_right (by linarith)]
  · intro hs
    rw [f2, hs]
  · intro hr
    have hs := (reachable_slider_constants g hr).2.2.2
    refine ⟨hs, ?_⟩
    rw [(Slider.update_fields g.slider inp.deltaTime p).2.1, hs]

/-- Witness for C22: the paddle of the constructor, a hundredth of a second,
control 0.8; and the initial game state as reachable state. -/
theorem slider_update_spec_witness :
    (Slider.new.update (1 / 100) (8 / 10)).y
      = Slider.new.y + ((Slider.new.update (1 / 100) (8 / 10)).targetY - Slider.new.y) * 12
          * (1 / 100) ∧
    (Game.new noDeviceSystem).slider.speed = 12 :=
  have h := slider_update_spec Slider.new (1 / 100) (8 / 10) (Game.new noDeviceSystem) upTick
  ⟨h.2.2.2.2.1 rfl, (h.2.2.2.2.2.2 ⟨noDeviceSystem, [], rfl⟩).1⟩

/-- One paddle update with `0 <= speed * deltaTime <= 1` lands between the old
position and the target. -/
theorem Slider.update_between (s : Slider) (dt p : ℚ)
    (h0 : 0 ≤ s.speed * dt) (h1 : s.speed * dt ≤ 1) :
    min s.y (s.update dt p).targetY ≤ (s.update dt p).y ∧
      (s.update dt p).y ≤ max s.y (s.update dt p).targetY := by
  rw [(Slider.update_fields s dt p).2.1]
  generalize (s.update dt p).targetY = t
  have e : s.y + (t - s.y) * s.speed * dt = s.y + (t - s.y) * (s.speed * dt) := by ring
  rw [e]
  generalize s.speed * dt = k at h0 h1
  rcases le_total s.y t with hyt | hyt
  · rw [min_eq_left hyt, max_eq_right hyt]
    constructor
    · nlinarith
    · nlinarith
  · rw [min_eq_right hyt, max_eq_left hyt]
    constructor
    · nlinarith
    · nlinarith

/-- Any number of paddle updates with `0 <= 12 * deltaTime <= 1` keeps a paddle
of speed 12 inside the field. -/
theorem Slider.foldl_update_in_field (inputs : List (ℚ × ℚ)) (s : Slider)
    (hs : s.speed = 12) (hy : -(85 / 100) ≤ s.y ∧ s.y ≤ 85 / 100)
    (hdt : ∀ i ∈ inputs, 0 ≤ 12 * i.1 ∧ 12 * i.1 ≤ 1) :
    -(85 / 100) ≤ (inputs.foldl (fun t i => t.update i.1 i.2) s).y ∧
      (inputs.foldl (fun t i => t.update i.1 i.2) s).y ≤ 85 / 100 := by
  induction inputs generalizing s with
  | nil => exact hy
  | cons i rest ih =>
    rw [List.foldl_cons]
    have hi := hdt i (List.mem_cons_self i rest)
    have hb := Slider.update_between s i.1 i.2 (by rw [hs]; exact hi.1) (by rw [hs]; exact hi.2)
    have ht := Slider.update_targetY_bounds s i.1 i.2
    apply ih
    · exact hs
    · constructor
      · exact le_trans (le_min hy.1 ht.1) hb.1
      · exact le_trans hb.2 (max_le hy.2 ht.2)
    · intro j hj
      exact hdt j (List.mem_cons_of_mem i hj)

/-- Function `Ball::update` keeps the horizontal speed. -/
theorem Ball.update_abs_vx (b : Ball) (dt m : ℚ) : |(b.update dt m).vx| = |b.vx| := by
  cases h : b.active
  · have : b.update dt m = b := by simp [Ball.update, h]
    rw [this]
  · rw [(Ball.update_active_fields b dt m h).2.2.1]
    split_ifs
    · exact abs_neg _
    · rfl

/-- Function `Ball::reset` sets the horizontal speed to 0.8. -/
theorem Ball.reset_abs_vx (b : Ball) (r1 r2 : Nat) : |(b.reset r1 r2).vx| = 8 / 10 := by
  simp only [Ball.reset]
  split_ifs
  · norm_num [abs_of_pos]
  · norm_num [abs_of_pos]

/-- The collision block keeps the horizontal speed. -/
theorem resolveCollision_abs_vx (q : Game) :
    |(resolveCollision q).ball.vx| = |q.ball.vx| := by
  unfold resolveCollision
  split_ifs
  · exact abs_abs _
  · rfl
  · rfl

/-- The miss block keeps a horizontal speed of 0.8. -/
theorem handleMiss_abs_vx (q : Game) (r1 r2 : Nat) (h : |q.ball.vx| = 8 / 10) :
    |(handleMiss q r1 r2).ball.vx| = 8 / 10 := by
  simp only [handleMiss]
  split_ifs
  · exact h
  · exact Ball.reset_abs_vx _ _ _
  · exact h

/-- Every command keeps a horizontal speed of 0.8. -/
theorem step_abs_vx (g : Game) (c : Command) (h : |g.ball.vx| = 8 / 10) :
    |(step g c).ball.vx| = 8 / 10 := by
  cases c with
  | space k r1 r2 =>
    simp only [step, handleSpace]
    split_ifs
    · exact Ball.reset_abs_vx _ _ _
    · exact Ball.reset_abs_vx _ _ _
    · exact h
    · exact h
  | speed inp => exact h
  | tick inp =>
    simp only [step]
    cases hg : g.gameOver
    · rw [update_running_afterMotion g inp hg]
      apply handleMiss_abs_vx
      rw [resolveCollision_abs_vx]
      show |(g.ball.update inp.deltaTime g.ballSpeedMultiplier).vx| = 8 / 10
      rw [Ball.update_abs_vx]
      exact h
    · rw [update_gameOver g inp hg]
      exact h

/-- In every reachable state the horizontal speed of the ball is 0.8. -/
theorem reachable_abs_vx (g : Game) (h : Reachable g) : |g.ball.vx| = 8 / 10 := by
  obtain ⟨sys, cs, rfl⟩ := h
  have key : ∀ (cs : List Command) (g : Game), |g.ball.vx| = 8 / 10 →
      |(runCommands g cs).ball.vx| = 8 / 10 := by
    intro cs
    induction cs with
    | nil => intro g hg; exact hg
    | cons c rest ih =>
      intro g hg
      unfold runCommands at ih ⊢
      rw [List.foldl_cons]
      exact ih _ (step_abs_vx g c hg)
  exact key cs (Game.new sys) (by norm_num [Game.new, Ball.new, abs_of_pos])

/-- C24: in every reachable state the ball's horizontal speed satisfies
`|vx| = 0.8`, that is `vx` is 0.8 or -0.8 (reset, right-wall reflection and
paddle hits all preserve it); it still does after a further tick, and after
every tick that counts a paddle hit `vx` equals 0.8. -/
theorem horizontal_speed_is_fixed (g : Game) (inp : TickInput) (hr : Reachable g) :
    |g.ball.vx| = 8 / 10 ∧
    (g.ball.vx = 8 / 10 ∨ g.ball.vx = -(8 / 10)) ∧
    |(update g inp).ball.vx| = 8 / 10 ∧
    (tickHits g inp = true → (update g inp).ball.vx = 8 / 10) := by
  have h0 := reachable_abs_vx g hr
  refine ⟨h0, ?_, ?_, ?_⟩
  · rcases abs_eq (by norm_num : (0 : ℚ) ≤ 8 / 10) |>.mp h0 with h | h
    · exact Or.inl h
    · exact Or.inr h
  · exact step_abs_vx g (.tick inp) h0
  · intro hh
    simp only [tickHits, Bool.and_eq_true, Bool.not_eq_true', decide_eq_true_eq] at hh
    obtain ⟨hg, ⟨ha, hc⟩, hv⟩ := hh
    rw [update_running_afterMotion g inp hg]
    have hqa : (resolveCollision (afterMotion g inp)).ball.active = true := by
      rw [(resolveCollision_frame _).2.2.2.2.1]; exact ha
    rw [handleMiss_active _ _ _ hqa, (resolveCollision_hit _ ha hc hv).1]
    show |(g.ball.update inp.deltaTime g.ballSpeedMultiplier).vx| = 8 / 10
    rw [Ball.update_abs_vx]
    exact h0

/-- C23: in every reachable state the ball is active whenever `gameOver` is
false, so no reachable state is running with an inactive ball; consequently in
a reachable running state the space-key block never takes its 'reset ball if
it is inactive' branch and only records the key. -/
theorem ball_active_while_running (g : Game) (spaceKey : Bool) (r1 r2 : Nat)
    (hr : Reachable g) :
    (g.gameOver = false → g.ball.active = true) ∧
    ¬ (g.gameOver = false ∧ g.ball.active = false) ∧
    (g.gameOver = false → handleSpace g spaceKey r1 r2 = { g with spacePressed := spaceKey }) := by
  have h1 : g.gameOver = false → g.ball.active = true := fun hg => (reachable_running g hr hg).1
  refine ⟨h1, ?_, ?_⟩
  · rintro ⟨hg, hb⟩
    rw [h1 hg] at hb
    cases hb
  · intro hg
    simp [handleSpace, hg, h1 hg]

/-- Sample evaluation: two `stallTick`s and a `nudgeTick` lead the game built
without a device to `preHitState`. -/
theorem runCommands_to_preHitState :
    runCommands (Game.new noDeviceSystem) [.tick stallTick, .tick stallTick, .tick nudgeTick]
      = preHitState := by
  norm_num [runCommands, step, update, Game.new, stallTick, nudgeTick, preHitState,
    noDeviceSystem, LidSensor.new, LidAngleSensor.new, Impl.new, findLidAngleSensor,
    kIOReturnSuccess, LidSensor.update, LidSensor.getCurrentAngle, lidPosition,
    LidSensor.isAvailable, Ball.new, Ball.reset, Ball.update, Slider.new, Slider.update,
    resolveCollision, Slider.checkCollision, handleMiss]

/-- Sample evaluation: `strikeTick` in `preHitState` counts a hit. -/
theorem tickHits_preHitState : tickHits preHitState strikeTick = true := by
  norm_num [tickHits, afterMotion, preHitState, strikeTick, Game.new, noDeviceSystem,
    LidSensor.new, LidAngleSensor.new, Impl.new, findLidAngleSensor,
    kIOReturnSuccess, LidSensor.update, LidSensor.getCurrentAngle, lidPosition,
    LidSensor.isAvailable, Ball.update, Slider.new, Slider.update, Slider.checkCollision]

/-- Witness for C23: `preHitState` is reachable and running. -/
theorem ball_active_while_running_witness :
    preHitState.ball.active = true ∧
    handleSpace preHitState true 1 1 = { preHitState with spacePressed := true } :=
  have h := ball_active_while_running preHitState true 1 1
    ⟨noDeviceSystem, [.tick stallTick, .tick stallTick, .tick nudgeTick],
      runCommands_to_preHitState⟩
  ⟨h.1 rfl, h.2.2 rfl⟩

/-- Witness for C24: `preHitState` is reachable and `strikeTick` counts a hit
in it. -/
theorem horizontal_speed_is_fixed_witness :
    |preHitState.ball.vx| = 8 / 10 ∧ (update preHitState strikeTick).ball.vx = 8 / 10 :=
  have h := horizontal_speed_is_fixed preHitState strikeTick
    ⟨noDeviceSystem, [.tick stallTick, .tick stallTick, .tick nudgeTick],
      runCommands_to_preHitState⟩
  ⟨h.1, h.2.2.2 tickHits_preHitState⟩

end LidPongGame

/-! ## Simulation: the paddle in float arithmetic -/

namespace LidPongGame

open MacBookLidAngle LidPong

/-- Evaluation of `roundHalfEven` from the floor `f` of the value. -/
theorem roundHalfEven_eval (q : ℚ) (f : ℤ) (h1 : (f : ℚ) ≤ q) (h2 : q < f + 1) :
    roundHalfEven q
      = if q - f < 1 / 2 then f else if 1 / 2 < q - f then f + 1
        else if f % 2 = 0 then f else f + 1 := by
  have hf : ⌊q⌋ = f := Int.floor_eq_iff.mpr ⟨h1, h2⟩
  simp only [roundHalfEven, hf]

/-- Rounding to an integer moves a value by at most one half. -/
theorem roundHalfEven_err (q : ℚ) : |(roundHalfEven q : ℚ) - q| ≤ 1 / 2 := by
  have h1 : (⌊q⌋ : ℚ) ≤ q := Int.floor_le q
  have h2 : q < ⌊q⌋ + 1 := Int.lt_floor_add_one q
  unfold roundHalfEven
  rw [abs_le]
  split_ifs with a b c
  · constructor <;> linarith
  · push_cast; constructor <;> linarith
  · constructor <;> linarith
  · push_cast; constructor <;> linarith

/-- The binade of a value between two consecutive powers of two. -/
theorem binade_eq (emin : ℤ) (x : ℚ) (e : ℤ) (h1 : (2 : ℚ) ^ e ≤ |x|) (h2 : |x| < 2 ^ (e + 1))
    (he : emin ≤ e) : binade emin x = e := by
  have hpos : 0 < |x| := lt_of_lt_of_le (by positivity) h1
  have hlog : Int.log 2 |x| = e := by
    apply le_antisymm
    · have := (Int.lt_zpow_iff_log_lt (b := 2) (by norm_num) hpos (x := e + 1)).mp
        (by simpa using h2)
      omega
    · exact (Int.zpow_le_iff_le_log (b := 2) (by norm_num) hpos).mp (by simpa using h1)
  unfold binade
  rw [hlog]
  exact max_eq_left he

/-- Evaluation of a rounding from the exponent `e` of the binade. -/
theorem roundBinary_eval (prec : ℕ) (emin : ℤ) (x : ℚ) (e z : ℤ)
    (h1 : (2 : ℚ) ^ e ≤ |x|) (h2 : |x| < 2 ^ (e + 1)) (he : emin ≤ e)
    (hz : roundHalfEven (x / 2 ^ (e - ((prec : ℤ) - 1))) = z) :
    roundBinary prec emin x = (z : ℚ) * 2 ^ (e - ((prec : ℤ) - 1)) := by
  unfold roundBinary
  rw [binade_eq emin x e h1 h2 he, hz]

/-- The error of a rounding: at most the relative error `2^-prec` of the value
plus the absolute error `2^(emin - prec)` of the subnormal range. -/
theorem roundBinary_err (prec : ℕ) (emin : ℤ) (x : ℚ) :
    |roundBinary prec emin x - x|
      ≤ |x| * 2 ^ (-(prec : ℤ)) + 2 ^ (emin - (prec : ℤ)) := by
  have hu : (0 : ℚ) < 2 ^ (binade emin x - ((prec : ℤ) - 1)) := by positivity
  have hr := roundHalfEven_err (x / 2 ^ (binade emin x - ((prec : ℤ) - 1)))
  have key : |roundBinary prec emin x - x| ≤ 2 ^ (binade emin x - (prec : ℤ)) := by
    unfold roundBinary
    have e1 : (roundHalfEven (x / 2 ^ (binade emin x - ((prec : ℤ) - 1))) : ℚ)
          * 2 ^ (binade emin x - ((prec : ℤ) - 1)) - x
        = ((roundHalfEven (x / 2 ^ (binade emin x - ((prec : ℤ) - 1))) : ℚ)
            - x / 2 ^ (binade emin x - ((prec : ℤ) - 1)))
          * 2 ^ (binade emin x - ((prec : ℤ) - 1)) := by
      field_simp
    rw [e1, abs_mul, abs_of_pos hu]
    have e2 : (2 : ℚ) ^ (binade emin x - (prec : ℤ))
        = 1 / 2 * 2 ^ (binade emin x - ((prec : ℤ) - 1)) := by
      rw [show binade emin x - ((prec : ℤ) - 1) = (binade emin x - (prec : ℤ)) + 1 by ring,
        zpow_add_one₀ (by norm_num)]
      ring
    rw [e2]
    exact mul_le_mul_of_nonneg_right hr (le_of_lt hu)
  have hA : (0 : ℚ) ≤ |x| * 2 ^ (-(prec : ℤ)) := by positivity
  have hB : (0 : ℚ) ≤ 2 ^ (emin - (prec : ℤ)) := by positivity
  rcases le_total (Int.log 2 |x|) emin with hle | hle
  · have hb : binade emin x = emin := max_eq_right hle
    rw [hb] at key
    linarith
  · have hb : binade emin x = Int.log 2 |x| := max_eq_left hle
    rw [hb] at key
    rcases eq_or_lt_of_le (abs_nonneg x) with h0 | hpos
    · -- x = 0
      have hx : x = 0 := abs_eq_zero.mp h0.symm
      have hl : Int.log 2 |x| = 0 := by rw [← h0]; exact Int.log_zero_right 2
      have : emin ≤ 0 := by omega
      have hval : roundBinary prec emin x - x = 0 := by
        unfold roundBinary
        rw [hx]
        simp [roundHalfEven]
      rw [hval, abs_zero]
      linarith
    · have hle2 : (2 : ℚ) ^ Int.log 2 |x| ≤ |x| := by
        simpa using Int.zpow_log_le_self (b := 2) (by norm_num) hpos
      have e3 : (2 : ℚ) ^ (Int.log 2 |x| - (prec : ℤ))
          = 2 ^ Int.log 2 |x| * 2 ^ (-(prec : ℤ)) := by
        rw [← zpow_add₀ (by norm_num)]
        congr 1
      rw [e3] at key
      have : (2 : ℚ) ^ Int.log 2 |x| * 2 ^ (-(prec : ℤ)) ≤ |x| * 2 ^ (-(prec : ℤ)) :=
        mul_le_mul_of_nonneg_right hle2 (by positivity)
      linarith


/-- Evaluation of a rounding from the exponent `e` and the floor `f` of the
scaled value. -/
theorem roundBinary_eval_floor (prec : ℕ) (emin : ℤ) (x : ℚ) (e f z : ℤ)
    (h1 : (2 : ℚ) ^ e ≤ |x|) (h2 : |x| < 2 ^ (e + 1)) (he : emin ≤ e)
    (hf1 : (f : ℚ) ≤ x / 2 ^ (e - ((prec : ℤ) - 1)))
    (hf2 : x / 2 ^ (e - ((prec : ℤ) - 1)) < f + 1)
    (hz : (if x / 2 ^ (e - ((prec : ℤ) - 1)) - f < 1 / 2 then f
            else if 1 / 2 < x / 2 ^ (e - ((prec : ℤ) - 1)) - f then f + 1
            else if f % 2 = 0 then f else f + 1) = z) :
    roundBinary prec emin x = (z : ℚ) * 2 ^ (e - ((prec : ℤ) - 1)) := by
  apply roundBinary_eval prec emin x e z h1 h2 he
  rw [roundHalfEven_eval _ f hf1 hf2, hz]

/-- Sample evaluation: the double subtraction `lidPosition - 0.5f` is exact. -/
theorem overshoot_step1 : roundDouble (doubleEightTenths - 1 / 2) = 1351079888211149 / 4503599627370496 := by
  rw [roundDouble, roundBinary_eval_floor 53 (-1022) (doubleEightTenths - 1 / 2) (-2) 5404319552844596 5404319552844596
    (by rw [abs_of_pos (by norm_num [doubleEightTenths])]; norm_num [doubleEightTenths]) (by rw [abs_of_pos (by norm_num [doubleEightTenths])]; norm_num [doubleEightTenths])
    (by norm_num) (by norm_num [doubleEightTenths]) (by norm_num [doubleEightTenths]) (by norm_num [doubleEightTenths])]
  norm_num

/-- Sample evaluation: the conversion of the difference to `float` gives `0.3f`. -/
theorem overshoot_step2 : roundFloat (1351079888211149 / 4503599627370496) = 5033165 / 16777216 := by
  rw [roundFloat, roundBinary_eval_floor 24 (-126) (1351079888211149 / 4503599627370496) (-2) 10066329 10066330
    (by rw [abs_of_pos (by norm_num)]; norm_num) (by rw [abs_of_pos (by norm_num)]; norm_num)
    (by norm_num) (by norm_num) (by norm_num) (by norm_num)]
  norm_num

/-- Sample evaluation: `normalizedPos * 4.0f`. -/
theorem overshoot_step3 : roundFloat (5033165 / 16777216 * 4) = 5033165 / 4194304 := by
  rw [roundFloat, roundBinary_eval_floor 24 (-126) (5033165 / 16777216 * 4) (0) 10066330 10066330
    (by rw [abs_of_pos (by norm_num)]; norm_num) (by rw [abs_of_pos (by norm_num)]; norm_num)
    (by norm_num) (by norm_num) (by norm_num) (by norm_num)]
  norm_num

/-- The constant `0.85f`. -/
theorem roundFloat_85 : roundFloat (85 / 100) = 7130317 / 8388608 := by
  rw [roundFloat, roundBinary_eval_floor 24 (-126) (85 / 100) (-1) 14260633 14260634
    (by rw [abs_of_pos (by norm_num)]; norm_num) (by rw [abs_of_pos (by norm_num)]; norm_num)
    (by norm_num) (by norm_num) (by norm_num) (by norm_num)]
  norm_num

/-- Sample evaluation: `superSensitive * 0.85f`. -/
theorem overshoot_step5 : roundFloat (5033165 / 4194304 * (7130317 / 8388608)) = 8556381 / 8388608 := by
  rw [roundFloat, roundBinary_eval_floor 24 (-126) (5033165 / 4194304 * (7130317 / 8388608)) (0) 8556380 8556381
    (by rw [abs_of_pos (by norm_num)]; norm_num) (by rw [abs_of_pos (by norm_num)]; norm_num)
    (by norm_num) (by norm_num) (by norm_num) (by norm_num)]
  norm_num

/-- Sample evaluation: `targetY - y` is a tie and rounds to the even neighbour. -/
theorem overshoot_step7 : roundFloat (7130317 / 8388608 - overshootSlider.y) = 6884701 / 4194304 := by
  rw [roundFloat, roundBinary_eval_floor 24 (-126) (7130317 / 8388608 - overshootSlider.y) (0) 13769401 13769402
    (by rw [abs_of_pos (by norm_num [overshootSlider, Slider.new])]; norm_num [overshootSlider, Slider.new]) (by rw [abs_of_pos (by norm_num [overshootSlider, Slider.new])]; norm_num [overshootSlider, Slider.new])
    (by norm_num) (by norm_num [overshootSlider, Slider.new]) (by norm_num [overshootSlider, Slider.new]) (by norm_num [overshootSlider, Slider.new])]
  norm_num

/-- Sample evaluation: `diff * speed` is a tie and rounds to the even neighbour. -/
theorem overshoot_step8 : roundFloat (6884701 / 4194304 * overshootSlider.speed) = 2581763 / 131072 := by
  rw [roundFloat, roundBinary_eval_floor 24 (-126) (6884701 / 4194304 * overshootSlider.speed) (4) 10327051 10327052
    (by rw [abs_of_pos (by norm_num [overshootSlider, Slider.new])]; norm_num [overshootSlider, Slider.new]) (by rw [abs_of_pos (by norm_num [overshootSlider, Slider.new])]; norm_num [overshootSlider, Slider.new])
    (by norm_num) (by norm_num [overshootSlider, Slider.new]) (by norm_num [overshootSlider, Slider.new]) (by norm_num [overshootSlider, Slider.new])]
  norm_num

/-- Sample evaluation: the product with `deltaTime`. -/
theorem overshoot_step9 : roundFloat (2581763 / 131072 * overshootDeltaTime) = 6884701 / 4194304 := by
  rw [roundFloat, roundBinary_eval_floor 24 (-126) (2581763 / 131072 * overshootDeltaTime) (0) 13769401 13769402
    (by rw [abs_of_pos (by norm_num [overshootDeltaTime])]; norm_num [overshootDeltaTime]) (by rw [abs_of_pos (by norm_num [overshootDeltaTime])]; norm_num [overshootDeltaTime])
    (by norm_num) (by norm_num [overshootDeltaTime]) (by norm_num [overshootDeltaTime]) (by norm_num [overshootDeltaTime])]
  norm_num

/-- Sample evaluation: the sum `y + diff * speed * deltaTime` is a float. -/
theorem overshoot_step10 : roundFloat (overshootSlider.y + 6884701 / 4194304) = 14260635 / 16777216 := by
  rw [roundFloat, roundBinary_eval_floor 24 (-126) (overshootSlider.y + 6884701 / 4194304) (-1) 14260635 14260635
    (by rw [abs_of_pos (by norm_num [overshootSlider, Slider.new])]; norm_num [overshootSlider, Slider.new]) (by rw [abs_of_pos (by norm_num [overshootSlider, Slider.new])]; norm_num [overshootSlider, Slider.new])
    (by norm_num) (by norm_num [overshootSlider, Slider.new]) (by norm_num [overshootSlider, Slider.new]) (by norm_num [overshootSlider, Slider.new])]
  norm_num

/-- Sample evaluation: the height of `overshootSlider` is a `float`. -/
theorem overshootSlider_y_float : roundFloat (overshootSlider.y) = -(13278169 / 16777216) := by
  rw [roundFloat, roundBinary_eval_floor 24 (-126) (overshootSlider.y) (-1) (-13278169) (-13278169)
    (by rw [abs_of_neg (by norm_num [overshootSlider, Slider.new])]; norm_num [overshootSlider, Slider.new]) (by rw [abs_of_neg (by norm_num [overshootSlider, Slider.new])]; norm_num [overshootSlider, Slider.new])
    (by norm_num) (by norm_num [overshootSlider, Slider.new]) (by norm_num [overshootSlider, Slider.new]) (by norm_num [overshootSlider, Slider.new])]
  norm_num

/-- Sample evaluation: `overshootDeltaTime` is a `float`. -/
theorem overshootDeltaTime_float : roundFloat (overshootDeltaTime) = 5592405 / 67108864 := by
  rw [roundFloat, roundBinary_eval_floor 24 (-126) (overshootDeltaTime) (-4) 11184810 11184810
    (by rw [abs_of_pos (by norm_num [overshootDeltaTime])]; norm_num [overshootDeltaTime]) (by rw [abs_of_pos (by norm_num [overshootDeltaTime])]; norm_num [overshootDeltaTime])
    (by norm_num) (by norm_num [overshootDeltaTime]) (by norm_num [overshootDeltaTime]) (by norm_num [overshootDeltaTime])]
  norm_num

/-- Sample evaluation: `doubleEightTenths` is a `double`, the one nearest to 0.8. -/
theorem doubleEightTenths_double : roundDouble (8 / 10) = 3602879701896397 / 4503599627370496 := by
  rw [roundDouble, roundBinary_eval_floor 53 (-1022) (8 / 10) (-1) 7205759403792793 7205759403792794
    (by rw [abs_of_pos (by norm_num)]; norm_num) (by rw [abs_of_pos (by norm_num)]; norm_num)
    (by norm_num) (by norm_num) (by norm_num) (by norm_num)]
  norm_num

/-- Sample evaluation: the fused sum `y + (diff * speed) * deltaTime` rounds to
the same float. -/
theorem overshoot_step10_fused :
    roundFloat (overshootSlider.y + 2581763 / 131072 * overshootDeltaTime)
      = 14260635 / 16777216 := by
  rw [roundFloat, roundBinary_eval_floor 24 (-126)
    (overshootSlider.y + 2581763 / 131072 * overshootDeltaTime) (-1) 14260634 14260635
    (by rw [abs_of_pos (by norm_num [overshootSlider, Slider.new, overshootDeltaTime])]
        norm_num [overshootSlider, Slider.new, overshootDeltaTime])
    (by rw [abs_of_pos (by norm_num [overshootSlider, Slider.new, overshootDeltaTime])]
        norm_num [overshootSlider, Slider.new, overshootDeltaTime])
    (by norm_num) (by norm_num [overshootSlider, Slider.new, overshootDeltaTime])
    (by norm_num [overshootSlider, Slider.new, overshootDeltaTime])
    (by norm_num [overshootSlider, Slider.new, overshootDeltaTime])]
  norm_num

/-- Sample evaluation: the target computed from `doubleEightTenths` is `0.85f`. -/
theorem overshoot_target (fused : Bool) :
    (overshootSlider.updateFloat fused overshootDeltaTime doubleEightTenths).targetY
      = 7130317 / 8388608 := by
  simp only [Slider.updateFloat]
  rw [overshoot_step1, overshoot_step2, overshoot_step3, roundFloat_85, overshoot_step5]
  norm_num

/-- Sample evaluation: the new height, with and without a fused multiply-add. -/
theorem overshoot_y (fused : Bool) :
    (overshootSlider.updateFloat fused overshootDeltaTime doubleEightTenths).y
      = 14260635 / 16777216 := by
  have ht := overshoot_target fused
  simp only [Slider.updateFloat] at ht ⊢
  rw [ht, overshoot_step7, overshoot_step8]
  cases fused
  · simp only [Bool.false_eq_true, if_false]
    rw [overshoot_step9, overshoot_step10]
  · simp only [if_true]
    rw [overshoot_step10_fused]

/-- Counterexample to C25 as stated: the paddle at the `float` height
-0.79144055 (inside the field), speed 12, control value 0.8 and the `float`
deltaTime 0.08333333 (so that `0 <= 12 * deltaTime <= 1`). In the program's
arithmetic `Slider::update` gives targetY = 0.85f = 7130317 / 2^23 and the new
y = 14260635 / 2^24 = 0.85000008, with and without a fused multiply-add: the
new y lies above targetY, hence not between the old y and targetY, and outside
[-0.85, 0.85]. -/
theorem slider_float_overshoot_counterexample :
    (0 ≤ 12 * overshootDeltaTime ∧ 12 * overshootDeltaTime ≤ 1) ∧
    overshootSlider.speed = 12 ∧
    (-(85 / 100) ≤ overshootSlider.y ∧ overshootSlider.y ≤ 85 / 100) ∧
    (roundFloat overshootSlider.y = overshootSlider.y ∧
      roundFloat overshootDeltaTime = overshootDeltaTime ∧
      roundDouble (8 / 10) = doubleEightTenths) ∧
    (overshootSlider.updateFloat false overshootDeltaTime doubleEightTenths).targetY
      = 7130317 / 8388608 ∧
    (overshootSlider.updateFloat false overshootDeltaTime doubleEightTenths).y
      = 14260635 / 16777216 ∧
    (overshootSlider.updateFloat true overshootDeltaTime doubleEightTenths).y
      = 14260635 / 16777216 ∧
    overshootSlider.y
      < (overshootSlider.updateFloat false overshootDeltaTime doubleEightTenths).targetY ∧
    (overshootSlider.updateFloat false overshootDeltaTime doubleEightTenths).targetY
      < (overshootSlider.updateFloat false overshootDeltaTime doubleEightTenths).y ∧
    85 / 100 < (overshootSlider.updateFloat false overshootDeltaTime doubleEightTenths).y := by
  rw [overshoot_target false, overshoot_y false, overshoot_y true, overshootSlider_y_float,
    overshootDeltaTime_float, doubleEightTenths_double]
  norm_num [overshootSlider, Slider.new, overshootDeltaTime, doubleEightTenths]

/-- The error of a `float` rounding, for a value of magnitude at most `B`. -/
theorem roundFloat_err_le (x B : ℚ) (h : |x| ≤ B) :
    |roundFloat x - x| ≤ B / 16777216 + 1 / 16777216000 := by
  have h1 := roundBinary_err 24 (-126) x
  have e1 : (2 : ℚ) ^ (-((24 : ℕ) : ℤ)) = 1 / 16777216 := by norm_num
  have e2 : (2 : ℚ) ^ ((-126 : ℤ) - ((24 : ℕ) : ℤ)) ≤ 1 / 16777216000 := by norm_num
  rw [e1] at h1
  unfold roundFloat
  have h3 : |x| * (1 / 16777216) ≤ B / 16777216 := by
    rw [mul_one_div]
    exact div_le_div_of_nonneg_right h (by norm_num)
  linarith

/-- The target of the paddle in `float` arithmetic lies between `-0.85f` and `0.85f`. -/
theorem Slider.updateFloat_targetY_bounds (s : Slider) (fused : Bool) (dt p : ℚ) :
    -(7130317 / 8388608) ≤ (s.updateFloat fused dt p).targetY ∧
      (s.updateFloat fused dt p).targetY ≤ 7130317 / 8388608 := by
  simp only [Slider.updateFloat, roundFloat_85]
  generalize roundFloat (roundFloat (roundFloat (roundDouble (p - 1 / 2)) * 4)
    * (7130317 / 8388608)) = t0
  split_ifs <;> constructor <;> linarith

/-- In `float` arithmetic one paddle update with speed 12, a height of
magnitude at most 1 and `0 <= 12 * deltaTime <= 1` lands within `2^-20` of the
interval between the old height and the target, with or without a fused
multiply-add. -/
theorem Slider.updateFloat_near_between (s : Slider) (fused : Bool) (dt p : ℚ)
    (hs : s.speed = 12) (hy : |s.y| ≤ 1) (h0 : 0 ≤ 12 * dt) (h1 : 12 * dt ≤ 1) :
    min s.y (s.updateFloat fused dt p).targetY - 1 / 1048576 ≤ (s.updateFloat fused dt p).y ∧
      (s.updateFloat fused dt p).y
        ≤ max s.y (s.updateFloat fused dt p).targetY + 1 / 1048576 := by
  obtain ⟨hT1, hT2⟩ := Slider.updateFloat_targetY_bounds s fused dt p
  have hyeq : (s.updateFloat fused dt p).y
      = roundFloat (s.y + (if fused then
            roundFloat (roundFloat ((s.updateFloat fused dt p).targetY - s.y) * s.speed) * dt
          else roundFloat (roundFloat (roundFloat ((s.updateFloat fused dt p).targetY - s.y)
            * s.speed) * dt))) := rfl
  rw [hyeq, hs]
  generalize (s.updateFloat fused dt p).targetY = T at hT1 hT2 ⊢
  obtain ⟨hy1, hy2⟩ := abs_le.mp hy
  have hdt0 : 0 ≤ dt := by linarith
  have hdt1 : dt ≤ 1 / 12 := by linarith
  -- diff
  have hx1 : |T - s.y| ≤ 2 := by rw [abs_le]; constructor <;> linarith
  have hd := roundFloat_err_le (T - s.y) 2 hx1
  obtain ⟨hd1, hd2⟩ := abs_le.mp hd
  generalize roundFloat (T - s.y) = d at hd hd1 hd2 ⊢
  have hdB : |d * 12| ≤ 126 / 5 := by
    obtain ⟨a1, a2⟩ := abs_le.mp hx1
    rw [abs_le]; constructor <;> linarith
  -- diff * speed
  have ha := roundFloat_err_le (d * 12) (126 / 5) hdB
  obtain ⟨ha1, ha2⟩ := abs_le.mp ha
  obtain ⟨hdB1, hdB2⟩ := abs_le.mp hdB
  generalize roundFloat (d * 12) = a at ha ha1 ha2 ⊢
  have haB1 : -(253 / 10) ≤ a := by linarith
  have haB2 : a ≤ 253 / 10 := by linarith
  have hadt : |a * dt| ≤ 253 / 120 := by
    rw [abs_le]
    have k1 : a * dt ≤ 253 / 10 * dt := mul_le_mul_of_nonneg_right haB2 hdt0
    have k2 : -(253 / 10) * dt ≤ a * dt := mul_le_mul_of_nonneg_right haB1 hdt0
    constructor <;> linarith
  obtain ⟨hadt1, hadt2⟩ := abs_le.mp hadt
  -- the convex combination
  have hk0 : 0 ≤ 12 * dt := h0
  have hconv1 : min s.y T ≤ s.y + 12 * dt * (T - s.y) := by
    rcases le_total s.y T with h | h
    · rw [min_eq_left h]
      have : 0 ≤ 12 * dt * (T - s.y) := mul_nonneg hk0 (by linarith)
      linarith
    · rw [min_eq_right h]
      have : (1 - 12 * dt) * (T - s.y) ≤ 0 :=
        mul_nonpos_of_nonneg_of_nonpos (by linarith) (by linarith)
      linarith
  have hconv2 : s.y + 12 * dt * (T - s.y) ≤ max s.y T := by
    rcases le_total s.y T with h | h
    · rw [max_eq_right h]
      have : 0 ≤ (1 - 12 * dt) * (T - s.y) := mul_nonneg (by linarith) (by linarith)
      linarith
    · rw [max_eq_left h]
      have : 12 * dt * (T - s.y) ≤ 0 :=
        mul_nonpos_of_nonneg_of_nonpos hk0 (by linarith)
      linarith
  -- error of the increment before its own rounding
  have q1 : dt * (a - d * 12) ≤ dt * (126 / 5 / 16777216 + 1 / 16777216000) :=
    mul_le_mul_of_nonneg_left ha2 hdt0
  have q2 : dt * -(126 / 5 / 16777216 + 1 / 16777216000) ≤ dt * (a - d * 12) :=
    mul_le_mul_of_nonneg_left ha1 hdt0
  have q3 : 12 * dt * (d - (T - s.y)) ≤ 12 * dt * (2 / 16777216 + 1 / 16777216000) :=
    mul_le_mul_of_nonneg_left hd2 hk0
  have q4 : 12 * dt * -(2 / 16777216 + 1 / 16777216000) ≤ 12 * dt * (d - (T - s.y)) :=
    mul_le_mul_of_nonneg_left hd1 hk0
  have hsplit : a * dt - 12 * dt * (T - s.y)
      = dt * (a - d * 12) + 12 * dt * (d - (T - s.y)) := by ring
  have hinc1 : a * dt - 12 * dt * (T - s.y) ≤ 5 / 16777216 := by
    rw [hsplit]; linarith
  have hinc2 : -(5 / 16777216) ≤ a * dt - 12 * dt * (T - s.y) := by
    rw [hsplit]; linarith
  cases fused
  · simp only [Bool.false_eq_true, if_false]
    have hb := roundFloat_err_le (a * dt) (253 / 120) hadt
    obtain ⟨hb1, hb2⟩ := abs_le.mp hb
    generalize roundFloat (a * dt) = b at hb hb1 hb2 ⊢
    have hsum : |s.y + b| ≤ 4 := by rw [abs_le]; constructor <;> linarith
    have hf := roundFloat_err_le (s.y + b) 4 hsum
    obtain ⟨hf1, hf2⟩ := abs_le.mp hf
    constructor <;> linarith
  · simp only [if_true]
    have hsum : |s.y + a * dt| ≤ 4 := by rw [abs_le]; constructor <;> linarith
    have hf := roundFloat_err_le (s.y + a * dt) 4 hsum
    obtain ⟨hf1, hf2⟩ := abs_le.mp hf
    constructor <;> linarith

/-- Sample evaluation: `targetY - y` for the paddle of the constructor. -/
theorem stall_step7 : roundFloat (7130317 / 8388608 - Slider.new.y) = 7130317 / 8388608 := by
  rw [roundFloat, roundBinary_eval_floor 24 (-126) (7130317 / 8388608 - Slider.new.y) (-1) 14260634 14260634
    (by rw [abs_of_pos (by norm_num [Slider.new])]; norm_num [Slider.new]) (by rw [abs_of_pos (by norm_num [Slider.new])]; norm_num [Slider.new])
    (by norm_num) (by norm_num [Slider.new]) (by norm_num [Slider.new]) (by norm_num [Slider.new])]
  norm_num

/-- Sample evaluation: `diff * speed` for the paddle of the constructor is a tie. -/
theorem stall_step8 : roundFloat (7130317 / 8388608 * Slider.new.speed) = 2673869 / 262144 := by
  rw [roundFloat, roundBinary_eval_floor 24 (-126) (7130317 / 8388608 * Slider.new.speed) (3) 10695475 10695476
    (by rw [abs_of_pos (by norm_num [Slider.new])]; norm_num [Slider.new]) (by rw [abs_of_pos (by norm_num [Slider.new])]; norm_num [Slider.new])
    (by norm_num) (by norm_num [Slider.new]) (by norm_num [Slider.new]) (by norm_num [Slider.new])]
  norm_num

/-- Sample evaluation: the product with a deltaTime of a quarter second. -/
theorem stall_step9 : roundFloat (2673869 / 262144 * (1 / 4)) = 2673869 / 1048576 := by
  rw [roundFloat, roundBinary_eval_floor 24 (-126) (2673869 / 262144 * (1 / 4)) (1) 10695476 10695476
    (by rw [abs_of_pos (by norm_num)]; norm_num) (by rw [abs_of_pos (by norm_num)]; norm_num)
    (by norm_num) (by norm_num) (by norm_num) (by norm_num)]
  norm_num

/-- Sample evaluation: the sum for the paddle of the constructor. -/
theorem stall_step10 : roundFloat (Slider.new.y + 2673869 / 1048576) = 2673869 / 1048576 := by
  rw [roundFloat, roundBinary_eval_floor 24 (-126) (Slider.new.y + 2673869 / 1048576) (1) 10695476 10695476
    (by rw [abs_of_pos (by norm_num [Slider.new])]; norm_num [Slider.new]) (by rw [abs_of_pos (by norm_num [Slider.new])]; norm_num [Slider.new])
    (by norm_num) (by norm_num [Slider.new]) (by norm_num [Slider.new]) (by norm_num [Slider.new])]
  norm_num

/-- Sample evaluation: the fused sum for the paddle of the constructor. -/
theorem stall_step10_fused : roundFloat (Slider.new.y + 2673869 / 262144 * (1 / 4)) = 2673869 / 1048576 := by
  rw [roundFloat, roundBinary_eval_floor 24 (-126) (Slider.new.y + 2673869 / 262144 * (1 / 4)) (1) 10695476 10695476
    (by rw [abs_of_pos (by norm_num [Slider.new])]; norm_num [Slider.new]) (by rw [abs_of_pos (by norm_num [Slider.new])]; norm_num [Slider.new])
    (by norm_num) (by norm_num [Slider.new]) (by norm_num [Slider.new]) (by norm_num [Slider.new])]
  norm_num

/-- The target computed from `doubleEightTenths` is `0.85f`, for every paddle. -/
theorem Slider.updateFloat_target_eightTenths (s : Slider) (fused : Bool) (dt : ℚ) :
    (s.updateFloat fused dt doubleEightTenths).targetY = 7130317 / 8388608 := by
  simp only [Slider.updateFloat]
  rw [overshoot_step1, overshoot_step2, overshoot_step3, roundFloat_85, overshoot_step5]
  norm_num

/-- Sample evaluation: a quarter second carries the paddle of the constructor
far past its target, with and without a fused multiply-add. -/
theorem stall_y (fused : Bool) :
    (Slider.new.updateFloat fused (1 / 4) doubleEightTenths).y = 2673869 / 1048576 := by
  have ht := Slider.updateFloat_target_eightTenths Slider.new fused (1 / 4)
  simp only [Slider.updateFloat] at ht ⊢
  rw [ht, stall_step7, stall_step8]
  cases fused
  · simp only [Bool.false_eq_true, if_false]
    rw [stall_step9, stall_step10]
  · simp only [if_true]
    rw [stall_step10_fused]

/-- In `float` arithmetic every admissible update adds at most `2^-20` to the
bound on the height of a paddle of speed 12, for up to 100000 updates. -/
theorem Slider.foldl_updateFloat_bound (fused : Bool) (inputs : List (ℚ × ℚ)) (s : Slider)
    (k : ℕ) (hs : s.speed = 12) (hy : |s.y| ≤ 7130317 / 8388608 + (k : ℚ) / 1048576)
    (hn : k + inputs.length ≤ 100000)
    (hdt : ∀ i ∈ inputs, 0 ≤ 12 * i.1 ∧ 12 * i.1 ≤ 1) :
    |(inputs.foldl (fun t i => t.updateFloat fused i.1 i.2) s).y|
      ≤ 7130317 / 8388608 + ((k + inputs.length : ℕ) : ℚ) / 1048576 := by
  induction inputs generalizing s k with
  | nil => simpa using hy
  | cons i rest ih =>
    rw [List.foldl_cons]
    have hlen : (i :: rest).length = rest.length + 1 := List.length_cons i rest
    have hk : (k : ℚ) ≤ 100000 := by
      have : k ≤ 100000 := by omega
      exact_mod_cast this
    have hy1 : |s.y| ≤ 1 := by
      have : (7130317 : ℚ) / 8388608 + (k : ℚ) / 1048576 ≤ 1 := by
        have : (k : ℚ) / 1048576 ≤ 100000 / 1048576 := div_le_div_of_nonneg_right hk (by norm_num)
        linarith
      linarith
    have hi := hdt i (List.mem_cons_self i rest)
    obtain ⟨b1, b2⟩ := Slider.updateFloat_near_between s fused i.1 i.2 hs hy1 hi.1 hi.2
    obtain ⟨t1, t2⟩ := Slider.updateFloat_targetY_bounds s fused i.1 i.2
    obtain ⟨y1, y2⟩ := abs_le.mp hy
    have hk0 : (0 : ℚ) ≤ (k : ℚ) / 1048576 := by positivity
    have hnext : |(s.updateFloat fused i.1 i.2).y|
        ≤ 7130317 / 8388608 + ((k + 1 : ℕ) : ℚ) / 1048576 := by
      push_cast
      rw [abs_le]
      constructor
      · have : -(7130317 / 8388608 + (k : ℚ) / 1048576)
            ≤ min s.y (s.updateFloat fused i.1 i.2).targetY := le_min y1 (by linarith)
        linarith
      · have : max s.y (s.updateFloat fused i.1 i.2).targetY
            ≤ 7130317 / 8388608 + (k : ℚ) / 1048576 := max_le y2 (by linarith)
        linarith
    have := ih (s.updateFloat fused i.1 i.2) (k + 1) hs hnext (by rw [hlen] at hn; omega)
      (fun j hj => hdt j (List.mem_cons_of_mem i hj))
    rw [hlen]
    have e : k + 1 + rest.length = k + (rest.length + 1) := by omega
    rw [e] at this
    exact this


/-- C25, as the code has it: for a paddle of speed 12 (the constructor's
value), every deltaTime with `0 <= 12 * deltaTime <= 1` and every control
value, `Slider::update` moves `y` to a point between the old `y` and `targetY`
up to rounding: exactly between them in exact arithmetic, and within `2^-20` of
that interval in the program's `float` arithmetic when `|y| <= 1` (with or
without a fused multiply-add). Hence a paddle that starts with `y` in
[-0.85, 0.85] stays in [-0.85, 0.85] after any number of such updates in exact
arithmetic, and within `n * 2^-20` of `0.85f` after `n <= 100000` such updates
in `float` arithmetic. For some deltaTime above 1/12 the new `y` overshoots
`targetY` in both arithmetics, in `float` arithmetic by more than 1. -/
theorem slider_no_overshoot_up_to_rounding (s : Slider) (fused : Bool) (dt p : ℚ)
    (inputs : List (ℚ × ℚ)) (hs : s.speed = 12) (h0 : 0 ≤ 12 * dt) (h1 : 12 * dt ≤ 1) :
    (min s.y (s.update dt p).targetY ≤ (s.update dt p).y ∧
      (s.update dt p).y ≤ max s.y (s.update dt p).targetY) ∧
    (|s.y| ≤ 1 →
      min s.y (s.updateFloat fused dt p).targetY - 1 / 1048576
        ≤ (s.updateFloat fused dt p).y ∧
      (s.updateFloat fused dt p).y
        ≤ max s.y (s.updateFloat fused dt p).targetY + 1 / 1048576) ∧
    ((-(85 / 100) ≤ s.y ∧ s.y ≤ 85 / 100) →
      (∀ i ∈ inputs, 0 ≤ 12 * i.1 ∧ 12 * i.1 ≤ 1) →
      (-(85 / 100) ≤ (inputs.foldl (fun t i => t.update i.1 i.2) s).y ∧
        (inputs.foldl (fun t i => t.update i.1 i.2) s).y ≤ 85 / 100) ∧
      (inputs.length ≤ 100000 →
        |(inputs.foldl (fun t i => t.updateFloat fused i.1 i.2) s).y|
          ≤ 7130317 / 8388608 + (inputs.length : ℚ) / 1048576)) ∧
    (∃ (d q : ℚ), 1 / 12 < d ∧
      (Slider.new.y < (Slider.new.update d q).targetY ∧
        (Slider.new.update d q).targetY < (Slider.new.update d q).y) ∧
      (Slider.new.y < (Slider.new.updateFloat fused d q).targetY ∧
        (Slider.new.updateFloat fused d q).targetY + 1
          < (Slider.new.updateFloat fused d q).y)) := by
  refine ⟨Slider.update_between s dt p (by rw [hs]; exact h0) (by rw [hs]; exact h1),
    fun hy => Slider.updateFloat_near_between s fused dt p hs hy h0 h1, ?_, ?_⟩
  · intro hy hdt
    refine ⟨Slider.foldl_update_in_field inputs s hs hy hdt, ?_⟩
    intro hlen
    have hy0 : |s.y| ≤ 7130317 / 8388608 + ((0 : ℕ) : ℚ) / 1048576 := by
      rw [abs_le]
      constructor <;> norm_num <;> linarith [hy.1, hy.2]
    have := Slider.foldl_updateFloat_bound fused inputs s 0 hs hy0 (by omega) hdt
    simpa using this
  · refine ⟨1 / 4, doubleEightTenths, by norm_num, ?_, ?_⟩
    · constructor <;> norm_num [Slider.new, Slider.update, doubleEightTenths]
    · rw [Slider.updateFloat_target_eightTenths, stall_y]
      constructor <;> norm_num [Slider.new]

/-- Witness for C25 as amended: the paddle of the constructor, an update of a
twenty-fourth of a second, and a run of two admissible updates. -/
theorem slider_no_overshoot_up_to_rounding_witness :
    (min Slider.new.y (Slider.new.update (1 / 24) (8 / 10)).targetY
        ≤ (Slider.new.update (1 / 24) (8 / 10)).y ∧
      (Slider.new.update (1 / 24) (8 / 10)).y
        ≤ max Slider.new.y (Slider.new.update (1 / 24) (8 / 10)).targetY) ∧
    (min Slider.new.y (Slider.new.updateFloat false (1 / 24) (8 / 10)).targetY - 1 / 1048576
        ≤ (Slider.new.updateFloat false (1 / 24) (8 / 10)).y ∧
      (Slider.new.updateFloat false (1 / 24) (8 / 10)).y
        ≤ max Slider.new.y (Slider.new.updateFloat false (1 / 24) (8 / 10)).targetY
          + 1 / 1048576) ∧
    ((-(85 / 100) ≤ ([((1 : ℚ) / 12, (8 : ℚ) / 10), (1 / 24, 2 / 10)].foldl
          (fun t i => t.update i.1 i.2) Slider.new).y ∧
        ([((1 : ℚ) / 12, (8 : ℚ) / 10), (1 / 24, 2 / 10)].foldl
          (fun t i => t.update i.1 i.2) Slider.new).y ≤ 85 / 100) ∧
      |([((1 : ℚ) / 12, (8 : ℚ) / 10), (1 / 24, 2 / 10)].foldl
          (fun t i => t.updateFloat false i.1 i.2) Slider.new).y|
        ≤ 7130317 / 8388608
          + (([((1 : ℚ) / 12, (8 : ℚ) / 10), (1 / 24, 2 / 10)].length : ℕ) : ℚ) / 1048576) :=
  have h := slider_no_overshoot_up_to_rounding Slider.new false (1 / 24) (8 / 10)
    [((1 : ℚ) / 12, (8 : ℚ) / 10), (1 / 24, 2 / 10)] rfl (by norm_num) (by norm_num)
  have h3 := h.2.2.1 (by norm_num [Slider.new])
    (fun i hi => by
      simp only [List.mem_cons, List.mem_singleton, List.not_mem_nil, or_false] at hi
      rcases hi with rfl | rfl <;> norm_num)
  ⟨h.1, h.2.1 (by norm_num [Slider.new]), h3.1, h3.2 (by decide)⟩

end LidPongGame
